import Mathlib

/-!
Verification development for the automated preprocessing pipeline
(`AdvancedDataPreprocessor` in `python-codes/pre-processing/preprocessing_api.py`).

The pipeline is shallowly embedded: pandas DataFrames become lists of named,
typed columns over a cell type; Python in-place mutation becomes explicit
state passing; Python exceptions become `Except` values in which a thrown
error carries the partially mutated state (mirroring the fact that in-place
mutations performed before a `raise` persist); calls into external libraries
(scikit-learn, imblearn, scipy, pandas numerics) are abstracted as oracle
functions supplied as parameters.  Machine floats are modelled as rationals;
IEEE infinities and NaN payloads are outside the model (a missing value is
the distinguished `Cell.null`).
-/

set_option maxHeartbeats 1000000

namespace PrepAPI

/-- A single cell of a tabular dataset: missing (NaN/None), a finite numeric
value, a string, or a datetime value (modelled as a numeric timestamp). -/
inductive Cell where
  | null
  | num (q : ℚ)
  | str (s : String)
  | dt (t : ℚ)
deriving DecidableEq

/-- The pandas dtype of a column, as far as the pipeline distinguishes them:
`numeric` (`np.number`), `object` (strings / mixed), `datetime`. -/
inductive DType where
  | numeric
  | object
  | datetime
deriving DecidableEq

/-- A named column with its dtype and cell contents. -/
structure Col where
  name : String
  dtype : DType
  cells : List Cell
deriving DecidableEq

/-- A DataFrame: an ordered collection of named columns. -/
structure DataFrame where
  cols : List Col
deriving DecidableEq

/-! Exact rational arithmetic, written through `Rat.divInt` so that concrete
pipeline runs reduce inside the kernel (the library seals the
`Rat.add`-family against unfolding).  These agree with the field operations
of `ℚ`; `qdiv` returns `0` on a zero divisor, the usual convention. -/

def qadd (a b : ℚ) : ℚ :=
  Rat.divInt (a.num * (b.den : Int) + b.num * (a.den : Int)) ((a.den : Int) * (b.den : Int))

def qsub (a b : ℚ) : ℚ :=
  Rat.divInt (a.num * (b.den : Int) - b.num * (a.den : Int)) ((a.den : Int) * (b.den : Int))

def qmul (a b : ℚ) : ℚ :=
  Rat.divInt (a.num * b.num) ((a.den : Int) * (b.den : Int))

def qdiv (a b : ℚ) : ℚ :=
  Rat.divInt (a.num * (b.den : Int)) ((a.den : Int) * b.num)

def qabs (a : ℚ) : ℚ :=
  if a.num < 0 then -a else a

def qsum (l : List ℚ) : ℚ :=
  l.foldl qadd 0

/-- The rational value of a natural number, written through `Rat.divInt` so
that it always reduces. -/
def qnat (n : Nat) : ℚ :=
  Rat.divInt (Int.ofNat n) 1

def Cell.isNull : Cell → Bool
  | .null => true
  | _ => false

def Cell.isStr : Cell → Bool
  | .str _ => true
  | _ => false

def DataFrame.names (df : DataFrame) : List String :=
  df.cols.map (·.name)

/-- Row count, as `len(df)` / `df.shape[0]`. -/
def DataFrame.nrows (df : DataFrame) : Nat :=
  match df.cols with
  | [] => 0
  | c :: _ => c.cells.length

def DataFrame.ncols (df : DataFrame) : Nat :=
  df.cols.length

def DataFrame.getCol? (df : DataFrame) (n : String) : Option Col :=
  df.cols.find? (fun c => c.name = n)

/-- `df[ns]` column selection, column by column: raises `KeyError` at the
first requested column that is absent. -/
def DataFrame.subCols (df : DataFrame) : List String → Except String (List Col)
  | [] => .ok []
  | n :: rest =>
    match df.getCol? n with
    | none => .error ("KeyError: " ++ n)
    | some c =>
      match df.subCols rest with
      | .error e => .error e
      | .ok cs => .ok (c :: cs)

/-- `df[ns]` column selection: raises `KeyError` when a requested column is
absent, otherwise returns the sub-frame in the requested order. -/
def DataFrame.subDf (df : DataFrame) (ns : List String) : Except String DataFrame :=
  match df.subCols ns with
  | .error e => .error e
  | .ok cs => .ok ⟨cs⟩

/-- `df.drop(columns=ns)` restricted to names that exist (call sites only drop
existing columns). -/
def DataFrame.dropCols (df : DataFrame) (ns : List String) : DataFrame :=
  ⟨df.cols.filter (fun c => !(ns.contains c.name))⟩

/-- `df[name] = ...` assignment: replaces the column with that name (call
sites only assign to existing columns; a fresh name is appended, as pandas
would create it). -/
def DataFrame.setCol (df : DataFrame) (c : Col) : DataFrame :=
  if df.names.contains c.name then
    ⟨df.cols.map (fun c0 => if c0.name = c.name then c else c0)⟩
  else
    ⟨df.cols ++ [c]⟩

/-- Apply a cell-list transformation to the named column, also updating its
dtype. No-op when the column is absent. -/
def DataFrame.mapCol (df : DataFrame) (n : String) (dt : DType)
    (f : List Cell → List Cell) : DataFrame :=
  ⟨df.cols.map (fun c0 => if c0.name = n then ⟨c0.name, dt, f c0.cells⟩ else c0)⟩

/-- Count of missing cells in one column (`series.isnull().sum()`). -/
def countNullCells (cells : List Cell) : Nat :=
  cells.countP (fun c => c.isNull)

/-- `df.isnull().sum().sum()`. -/
def DataFrame.countMissing (df : DataFrame) : Nat :=
  (df.cols.map (fun c => countNullCells c.cells)).sum

/-- Fraction of missing cells in a column (`series.isnull().mean()`); the
empty column gives `0` (pandas gives NaN, and every threshold comparison on
NaN is false, which coincides with comparisons against `0 > threshold` for
the nonnegative thresholds used). -/
def missingFrac (cells : List Cell) : ℚ :=
  qdiv (qnat (countNullCells cells)) (qnat cells.length)

/-- Fraction of non-missing cells (`series.notna().mean()`), empty ↦ 0. -/
def notnaFrac (cells : List Cell) : ℚ :=
  qdiv (qnat (cells.countP (fun c => ¬ c.isNull))) (qnat cells.length)

/-- The non-missing numeric values of a column. -/
def numsOf (cells : List Cell) : List ℚ :=
  cells.filterMap (fun c => match c with | .num q => some q | _ => none)

/-- `series.mean()` with pandas NaN-skipping. Errors (`TypeError`) when the
column holds string or datetime cells, as numpy reductions over them do;
`none` models a NaN result (no numeric values present). -/
def meanE (cells : List Cell) : Except String (Option ℚ) :=
  if cells.any (fun c => match c with | .str _ => true | .dt _ => true | _ => false) then
    .error "TypeError: could not reduce column"
  else
    match numsOf cells with
    | [] => .ok none
    | ns => .ok (some (qdiv (qsum ns) (qnat ns.length)))

/-- Stable insertion: `x` is placed before the first element it satisfies
`le` against, hence before later-listed equal elements. -/
def insertLe {α : Type} (le : α → α → Bool) (x : α) : List α → List α
  | [] => [x]
  | y :: ys => if le x y then x :: y :: ys else y :: insertLe le x ys

/-- Stable insertion sort (kept structural so that concrete runs reduce). -/
def insSort {α : Type} (le : α → α → Bool) : List α → List α
  | [] => []
  | x :: xs => insertLe le x (insSort le xs)

/-- Median of a nonempty list of rationals with linear interpolation at even
length, as `np.median` / `Series.median` on the non-missing values. -/
def medianQ (ns : List ℚ) : ℚ :=
  let sorted := insSort (fun a b => decide (a ≤ b)) ns
  let n := sorted.length
  if n % 2 = 1 then sorted.getD (n / 2) 0
  else qdiv (qadd (sorted.getD (n / 2 - 1) 0) (sorted.getD (n / 2) 0)) 2

/-- `series.median()` with NaN-skipping and `TypeError` on non-numeric data. -/
def medianE (cells : List Cell) : Except String (Option ℚ) :=
  if cells.any (fun c => match c with | .str _ => true | .dt _ => true | _ => false) then
    .error "TypeError: could not reduce column"
  else
    match numsOf cells with
    | [] => .ok none
    | ns => .ok (some (medianQ ns))

/-- Distinct non-missing values of a column in order of first appearance. -/
def distinctNonNull (cells : List Cell) : List Cell :=
  (cells.filter (fun c => ¬ c.isNull)).dedup

/-- `series.nunique()` (missing values excluded). -/
def nuniqueCells (cells : List Cell) : Nat :=
  (distinctNonNull cells).length

/-- `series.value_counts()`: pairs (value, count) over non-missing values,
sorted by count descending; ties keep first-appearance order. -/
def valueCounts (cells : List Cell) : List (Cell × Nat) :=
  let base := (distinctNonNull cells).map (fun v => (v, cells.count v))
  insSort (fun a b => decide (b.2 ≤ a.2)) base

/-! ### Configuration model -/

/-- A parameter value inside a per-factor configuration object. -/
inductive ParamVal where
  | b (v : Bool)
  | q (v : ℚ)
  | s (v : String)
deriving DecidableEq

/-- A per-factor configuration object (a Python dict). -/
abbrev Params := List (String × ParamVal)

/-- A value of the raw configuration mapping for one factor: a JSON boolean
or a parameter object. -/
inductive ConfigVal where
  | bool (b : Bool)
  | obj (o : Params)
deriving DecidableEq

/-- The raw configuration handed to the preprocessor: a dict from factor name
to `ConfigVal`, or some non-dict JSON value (string, list, number, ...) the
HTTP layer can pass through; a non-dict is modelled as truthy since falsy
values are replaced by the default configuration at construction. -/
inductive RawConfig where
  | dict (entries : List (String × ConfigVal))
  | nonDict
deriving DecidableEq

def lookupCV (entries : List (String × ConfigVal)) (key : String) : Option ConfigVal :=
  (entries.find? (fun p => p.1 = key)).map (·.2)

def lookupP (o : Params) (key : String) : Option ParamVal :=
  (o.find? (fun p => p.1 = key)).map (·.2)

/-- Python truthiness of a `ConfigVal` (`False`/`{}` falsy). -/
def truthyCV : ConfigVal → Bool
  | .bool b => b
  | .obj o => ¬ o.isEmpty

/-- Python truthiness of the raw configuration. -/
def truthyRaw : RawConfig → Bool
  | .dict l => ¬ l.isEmpty
  | .nonDict => true

/-- The entries of `_get_default_config`, factor by factor, values as in the
source. -/
def defaultEntries : List (String × ConfigVal) :=
  [ ("missing_values", .obj [("method", .s "mice"), ("max_missing_threshold", .q (Rat.divInt 1 2))]),
    ("duplicates", .obj [("method", .s "bloom_filter"), ("keep", .s "first")]),
    ("invalid_data", .obj [("method", .s "statistical_tests"), ("confidence_level", .q (Rat.divInt 1 20))]),
    ("outliers", .obj [("method", .s "isolation_forest"), ("contamination", .q (Rat.divInt 1 10))]),
    ("inconsistent_formats", .obj [("method", .s "regex_validation"), ("auto_fix", .b true)]),
    ("cardinality", .obj [("method", .s "probabilistic_counting"), ("max_cardinality", .q 100)]),
    ("class_imbalance", .obj [("method", .s "smote"), ("target_ratio", .s "auto")]),
    ("data_type_mismatch", .obj [("method", .s "schema_enforcement"), ("auto_convert", .b true)]),
    ("feature_correlation", .obj [("method", .s "pearson"), ("threshold", .q (Rat.divInt 9 10))]),
    ("low_variance", .obj [("method", .s "variance_threshold"), ("threshold", .q (Rat.divInt 1 100))]),
    ("mean_median_drift", .obj [("method", .s "percentage_drift"), ("threshold", .q (Rat.divInt 1 5))]),
    ("range_violations", .obj [("method", .s "domain_specific"), ("auto_bounds", .b true)]) ]

/-- `_get_default_config()`. -/
def defaultRawConfig : RawConfig := .dict defaultEntries

/-- `_get_default_config()[key]` (call sites only use the twelve keys, for
which the lookup succeeds). -/
def defaultFactor (key : String) : Params :=
  match lookupCV defaultEntries key with
  | some (.obj o) => o
  | _ => []

/-- `_get_factor_config(key)`: `val = self.config.get(key, True)`; a dict is
returned as-is, `True` resolves to the built-in default for the factor, and
anything else disables the factor (`None`).  Calling `.get` on a non-dict
configuration raises `AttributeError`. -/
def getFactorConfig (c : RawConfig) (key : String) : Except String (Option Params) :=
  match c with
  | .nonDict => .error "AttributeError: config has no attribute get"
  | .dict l =>
    match lookupCV l key with
    | none => .ok (some (defaultFactor key))
    | some (.obj o) => .ok (some o)
    | some (.bool true) => .ok (some (defaultFactor key))
    | some (.bool false) => .ok none

/-- The guard `if not cfg or cfg.get(key, True):` in `preprocess_all`, where
`cfg = self.config or {}`.  Returns whether the factor method is invoked, or
the `AttributeError` that `.get` raises on a non-dict configuration. -/
def guardVal (c : RawConfig) (key : String) : Except String Bool :=
  let cfgOr : RawConfig := if truthyRaw c then c else .dict []
  match cfgOr with
  | .dict l =>
    if l.isEmpty then .ok true
    else .ok (truthyCV ((lookupCV l key).getD (.bool true)))
  | .nonDict => .error "AttributeError: config has no attribute get"

/-! ### Parameter access

`cfg.get(k, d)` returns the stored value whatever its type; a later numeric
comparison against a non-numeric value raises `TypeError`.  `cfg[k]` raises
`KeyError` when absent. -/

/-- `cfg.get(key, default)` followed by use in a numeric comparison. -/
def numParam (o : Params) (key : String) (dflt : ℚ) : Except String ℚ :=
  match lookupP o key with
  | none => .ok dflt
  | some (.q v) => .ok v
  | some _ => .error ("TypeError: parameter " ++ key ++ " is not a number")

/-- `cfg.get(key, default)` used as an integer count. -/
def natParam (o : Params) (key : String) (dflt : Nat) : Except String Nat :=
  match lookupP o key with
  | none => .ok dflt
  | some (.q v) => if v.den = 1 ∧ 0 ≤ v.num then .ok v.num.toNat
      else .error ("TypeError: parameter " ++ key ++ " is not an int")
  | some _ => .error ("TypeError: parameter " ++ key ++ " is not an int")

/-- `cfg[key]` (direct indexing) used in a numeric comparison:
`KeyError` when absent, `TypeError` when not a number. -/
def indexNumParam (o : Params) (key : String) : Except String ℚ :=
  match lookupP o key with
  | none => .error ("KeyError: " ++ key)
  | some (.q v) => .ok v
  | some _ => .error ("TypeError: parameter " ++ key ++ " is not a number")

/-! ### Statistics, pipeline state, oracles -/

/-- A value inside a per-factor statistics record. -/
inductive StatVal where
  | i (n : Int)
  | q (v : ℚ)
  | s (v : String)
  | strs (l : List String)
  | pr (a b : Nat)
deriving DecidableEq

abbrev StatRec := List (String × StatVal)

abbrev Stats := List (String × StatRec)

/-- `self.preprocessing_stats[key] = rec` (dict assignment: replaces in place
when the key exists, appends otherwise). -/
def statsSet (st : Stats) (key : String) (rec : StatRec) : Stats :=
  if st.any (fun p => p.1 = key) then
    st.map (fun p => if p.1 = key then (key, rec) else p)
  else st ++ [(key, rec)]

def getStatI (st : Stats) (key field : String) : Int :=
  match (st.find? (fun p => p.1 = key)).map (·.2) with
  | some rec =>
    match lookupP' rec field with
    | some (.i n) => n
    | _ => 0
  | none => 0
where
  lookupP' (rec : StatRec) (field : String) : Option StatVal :=
    (rec.find? (fun p => p.1 = field)).map (·.2)

/-- The mutable per-invocation state the stages write: the dataset, the ad hoc
column classification lists, the report accumulators, and the error log
(`logger.error` lines). -/
structure Work where
  df : DataFrame
  numericCols : List String
  categoricalCols : List String
  datetimeCols : List String
  log : List String
  stats : Stats
  errlog : List String
deriving DecidableEq

/-- The read-only per-invocation environment: the untouched input copy, the
designated target column, and the resolved raw configuration. -/
structure Env where
  originalDf : DataFrame
  targetCol : Option String
  config : RawConfig
deriving DecidableEq

/-- External library calls, abstracted.  Stochastic components receive the
random seed they are constructed with (`random_state`); `seedArg` below
resolves a fixed seed against the ambient randomness exactly as scikit-learn
does. -/
structure Oracles where
  /-- `IterativeImputer(random_state, max_iter=10).fit_transform` on the
  selected numeric columns; result column-major. -/
  mice : Nat → DataFrame → Except String (List (List ℚ))
  /-- `IsolationForest(contamination, random_state).fit_predict`: the boolean
  outlier mask. -/
  isoforest : Nat → ℚ → DataFrame → Except String (List Bool)
  /-- `SMOTE(random_state, sampling_strategy=auto).fit_resample`. -/
  smote : Nat → DataFrame → List Cell → Except String (DataFrame × List Cell)
  /-- `pd.get_dummies(X, drop_first=True)`. -/
  dummies : DataFrame → Except String DataFrame
  /-- `numeric_df.corr().abs()` entry at (row i, column j), `none` for NaN. -/
  corrAbs : DataFrame → Nat → Nat → Option ℚ
  /-- `chi2_contingency([observed, expected])[:2]`. -/
  chi2p : List Nat → List ℚ → Except String (ℚ × ℚ)
  /-- `Series.std()` (ddof = 1) over the non-missing values; `none` for NaN. -/
  stdev : List ℚ → Option ℚ
  /-- `np.log1p`. -/
  log1p : ℚ → ℚ
  /-- `pd.to_numeric(·, errors=coerce)` on one string. -/
  parseNum : String → Option ℚ
  /-- `pd.to_datetime(·, errors=coerce)` on one string. -/
  parseDate : String → Option ℚ

/-- `random_state` resolution: an estimator constructed with an explicit seed
uses it; one constructed with `None` draws from the ambient global RNG. -/
def seedArg (rs : Option Nat) (ambient : Nat) : Nat :=
  rs.getD ambient

/-- A stage computation that may raise; a raised error carries the state
as mutated so far (in-place mutations persist past a Python `raise`). -/
abbrev StageResult := Except (Work × String) Work

/-- State after a stage call whose exceptions have been settled: the payload
of either branch. -/
def resState : StageResult → Work
  | .ok w => w
  | .error (w, _) => w

/-- The common shape of all twelve `_handle_*` methods: fetch the factor
config (errors here escape the method), return immediately when disabled, and
otherwise run the body under `try/except`, downgrading an exception to an
error-log line while keeping the partially mutated state. -/
def stageWrap (key errTag : String) (body : Params → Work → StageResult)
    (env : Env) (w : Work) : StageResult :=
  match getFactorConfig env.config key with
  | .error e => .error (w, e)
  | .ok none => .ok w
  | .ok (some cfg) =>
    match body cfg w with
    | .ok w1 => .ok w1
    | .error (w1, e) => .ok { w1 with errlog := w1.errlog ++ [errTag ++ e] }

/-! ### Small rendering helpers used in log lines and row fingerprints -/

def renderStrs (l : List String) : String :=
  "[" ++ String.intercalate ", " l ++ "]"

/-- A tagged rendering of a cell, used for the row fingerprint (MD5 over
`str(row.values)` is modelled as an injective rendering) and as the sort key
pandas uses for mode ties. -/
def cellRender : Cell → String
  | .null => "nan"
  | .num q => "N" ++ toString q
  | .str s => "S" ++ s
  | .dt t => "D" ++ toString t

/-- `str()` of a cell, as `series.astype(str)` renders it; a missing value
becomes the literal string nan. -/
def cellToStr : Cell → String
  | .null => "nan"
  | .num q => toString q
  | .str s => s
  | .dt t => toString t

/-! ### Stage 1: `_handle_missing_values` -/

/-- The `cols_to_drop` loop: per column, `missing_pct > cfg[max_missing_threshold]`
(direct indexing: `KeyError` when the key is absent, raised only when the loop
actually runs). -/
def mvColsToDrop (cfg : Params) (cols : List Col) : Except String (List String) :=
  cols.foldlM (fun acc c => do
    let thr ← indexNumParam cfg "max_missing_threshold"
    if missingFrac c.cells > thr then .ok (acc ++ [c.name]) else .ok acc) []

/-- `series.mode()[0]`: most frequent non-missing value, ties resolved by the
ascending sort pandas applies; `none` when the column has no values. -/
def modeCell (cells : List Cell) : Option Cell :=
  let nn := cells.filter (fun c => ¬ c.isNull)
  match nn with
  | [] => none
  | _ =>
    let counts := nn.dedup.map (fun v => (v, nn.count v))
    let maxCount := (counts.map (·.2)).foldl max 0
    let cand := (counts.filter (fun p => p.2 = maxCount)).map (·.1)
    (insSort (fun a b => decide (cellRender a ≤ cellRender b)) cand).head?

def colCells (df : DataFrame) (n : String) : List Cell :=
  match df.getCol? n with
  | some c => c.cells
  | none => []

def colHasNull (df : DataFrame) (n : String) : Bool :=
  countNullCells (colCells df n) > 0

/-- Keep a column dtype while transforming its cells. -/
def DataFrame.mapColKeep (df : DataFrame) (n : String) (f : List Cell → List Cell) : DataFrame :=
  ⟨df.cols.map (fun c0 => if c0.name = n then { c0 with cells := f c0.cells } else c0)⟩

/-- The body of `_handle_missing_values` over the fields the stage writes
(dataset, log; stats added at the end); the classification lists are only
read, never recomputed. -/
def mvCore (orc : Oracles) (amb : Nat) (cfg : Params) (numeric cat : List String)
    (df0 : DataFrame) (log0 : List String) :
    Except ((DataFrame × List String) × String) (DataFrame × List String) :=
  match mvColsToDrop cfg df0.cols with
  | .error e => .error ((df0, log0), e)
  | .ok colsToDrop =>
    let df1 := if colsToDrop.isEmpty then df0 else df0.dropCols colsToDrop
    let log1 :=
      if colsToDrop.isEmpty then log0
      else log0 ++ ["Dropped " ++ toString colsToDrop.length ++
        " columns with >50% missing values: " ++ renderStrs colsToDrop]
    if df1.countMissing > 0 then
      let numericMissing := numeric.filter (fun c =>
        df1.names.contains c ∧ colHasNull df1 c)
      let catMissing := cat.filter (fun c =>
        df1.names.contains c ∧ colHasNull df1 c)
      let step1 : Except ((DataFrame × List String) × String) (DataFrame × List String) :=
        if numericMissing.isEmpty then .ok (df1, log1)
        else
          match df1.subDf numericMissing with
          | .error e => .error ((df1, log1), e)
          | .ok sub =>
            match orc.mice (seedArg (some 42) amb) sub with
            | .error e => .error ((df1, log1), e)
            | .ok mat =>
              if mat.length = numericMissing.length ∧
                  mat.all (fun colvals => colvals.length = df1.nrows) then
                let df2 := (numericMissing.zip mat).foldl
                  (fun d (p : String × List ℚ) =>
                    d.setCol ⟨p.1, .numeric, p.2.map Cell.num⟩) df1
                let msg := "Applied MICE imputation to " ++
                  toString numericMissing.length ++ " numeric columns"
                .ok (df2, log1 ++ [msg])
              else .error ((df1, log1), "ValueError: shape mismatch in imputation result")
      match step1 with
      | .error e => .error e
      | .ok (df2, log2) =>
        if catMissing.isEmpty then .ok (df2, log2)
        else
          let df3 := catMissing.foldl (fun d c =>
            let mval := (modeCell (colCells d c)).getD (.str "Unknown")
            d.mapColKeep c (fun cs => cs.map (fun x => if x.isNull then mval else x))) df2
          let msg := "Applied mode imputation to " ++
            toString catMissing.length ++ " categorical columns"
          .ok (df3, log2 ++ [msg])
    else .ok (df1, log1)

def mvBody (orc : Oracles) (amb : Nat) (cfg : Params) (w : Work) : StageResult :=
  let missingBefore := w.df.countMissing
  match mvColsToDrop cfg w.df.cols with
  | .error e => .error (w, e)
  | .ok colsToDrop =>
    match mvCore orc amb cfg w.numericCols w.categoricalCols w.df w.log with
    | .error ((dfe, loge), e) => .error ({ w with df := dfe, log := loge }, e)
    | .ok (dff, logf) =>
      let rec1 : StatRec := [("before", .i missingBefore),
        ("after", .i dff.countMissing), ("columns_dropped", .i colsToDrop.length)]
      .ok { w with
            df := dff,
            log := logf,
            stats := statsSet w.stats "missing_values" rec1 }

/-! ### Stage 2: `_handle_duplicates` -/

inductive KeepMode where
  | first
  | last
  | allDup
deriving DecidableEq

/-- `cfg.get(keep, first)` fed to `Series.duplicated`; values other than
first / last / `False` raise `ValueError`. -/
def keepMode (cfg : Params) : Except String KeepMode :=
  match lookupP cfg "keep" with
  | none => .ok .first
  | some (.s v) =>
    if v = "first" then .ok .first
    else if v = "last" then .ok .last
    else .error "ValueError: keep must be first, last or False"
  | some (.b false) => .ok .allDup
  | some _ => .error "ValueError: keep must be first, last or False"

def rowKey (df : DataFrame) (i : Nat) : String :=
  String.intercalate "|" (df.cols.map (fun c => cellRender (c.cells.getD i .null)))

def dupBody (cfg : Params) (w : Work) : StageResult :=
  let beforeCount := w.df.nrows
  let keys := (List.range w.df.nrows).map (fun i => rowKey w.df i)
  match keepMode cfg with
  | .error e => .error (w, e)
  | .ok mode =>
    let marked : List Bool := (List.range keys.length).map (fun i =>
      match mode with
      | .first => (keys.take i).contains (keys.getD i "")
      | .last => (keys.drop (i + 1)).contains (keys.getD i "")
      | .allDup => keys.count (keys.getD i "") > 1)
    let keepIdx := (List.range keys.length).filter (fun i => ¬ marked.getD i false)
    let df1 : DataFrame := ⟨w.df.cols.map (fun c =>
      { c with cells := keepIdx.map (fun i => c.cells.getD i .null) })⟩
    let afterCount := df1.nrows
    let removed := beforeCount - afterCount
    let log1 := if removed > 0 then
        w.log ++ ["Removed " ++ toString removed ++
          " duplicate records using bloom filter approach"]
      else w.log
    let rec1 : StatRec := [("before_count", .i beforeCount),
      ("after_count", .i afterCount), ("removed", .i removed)]
    .ok { w with df := df1, log := log1, stats := statsSet w.stats "duplicates" rec1 }

/-! ### Stage 3: `_handle_invalid_data` -/

def invCatLoop (orc : Oracles) (cfg : Params) :
    List String → Work → Nat → Except (Work × String) (Work × Nat)
  | [], w, cnt => .ok (w, cnt)
  | c :: rest, w, cnt =>
    if w.df.names.contains c then
      let cells := colCells w.df c
      let vc := valueCounts cells
      if vc.length > 1 then
        let expected := List.replicate vc.length (qdiv (qnat w.df.nrows) (qnat vc.length))
        match orc.chi2p (vc.map (·.2)) expected with
        | .error e => .error (w, e)
        | .ok (_, p) =>
          match numParam cfg "confidence_level" (Rat.divInt 1 20) with
          | .error e => .error (w, e)
          | .ok conf =>
            if p < conf then
              let rare := (vc.filter (fun pr =>
                qnat pr.2 < qmul (qnat w.df.nrows) (Rat.divInt 1 1000))).map (·.1)
              if rare.isEmpty then invCatLoop orc cfg rest w cnt
              else
                let w1 := { w with
                  df := w.df.mapColKeep c (fun cs => cs.map (fun x =>
                    if rare.contains x then .str "Other" else x)),
                  log := w.log ++ ["Replaced " ++ toString rare.length ++
                    " rare values in " ++ c ++ " with Other"] }
                invCatLoop orc cfg rest w1 (cnt + rare.length)
            else invCatLoop orc cfg rest w cnt
      else invCatLoop orc cfg rest w cnt
    else invCatLoop orc cfg rest w cnt

/-- `np.isinf` over a column: `TypeError` on a non-numeric dtype; numeric
cells are finite rationals in the model, so no infinities are ever found. -/
def invNumLoop : List String → Work → Nat → Except (Work × String) (Work × Nat)
  | [], w, cnt => .ok (w, cnt)
  | c :: rest, w, cnt =>
    if w.df.names.contains c then
      match w.df.getCol? c with
      | none => invNumLoop rest w cnt
      | some col =>
        if col.dtype = .numeric then invNumLoop rest w cnt
        else .error (w, "TypeError: isinf not supported for this dtype")
    else invNumLoop rest w cnt

def invBody (orc : Oracles) (cfg : Params) (w : Work) : StageResult :=
  match invCatLoop orc cfg w.categoricalCols w 0 with
  | .error e => .error e
  | .ok (w1, cnt1) =>
    match invNumLoop w1.numericCols w1 cnt1 with
    | .error e => .error e
    | .ok (w2, cnt2) =>
      .ok { w2 with stats := statsSet w2.stats "invalid_data" [("invalid_values_fixed", .i cnt2)] }

/-! ### Stage 4: `_handle_data_type_mismatches` -/

/-- `pd.to_numeric(cell, errors=coerce)`. -/
def toNumericCell (orc : Oracles) : Cell → Cell
  | .null => .null
  | .num q => .num q
  | .str s => match orc.parseNum s with | some q => .num q | none => .null
  | .dt _ => .null

/-- `pd.to_datetime(cell, errors=coerce)`. -/
def toDatetimeCell (orc : Oracles) : Cell → Cell
  | .null => .null
  | .num q => .dt q
  | .str s => match orc.parseDate s with | some t => .dt t | none => .null
  | .dt t => .dt t

inductive Conv where
  | keep
  | toNum
  | toDt
deriving DecidableEq

/-- The per-column decision of the type-mismatch stage: on an object column,
commit numeric coercion when `notna().mean() > 0.8` over the coerced column
(the denominator is the full row count, so originally missing values count as
failures); otherwise try datetime under the same test. -/
def convertColumn (orc : Oracles) (c : Col) : Col × Conv :=
  if c.dtype = .object then
    let convN := c.cells.map (toNumericCell orc)
    if notnaFrac convN > Rat.divInt 4 5 then ({ c with dtype := .numeric, cells := convN }, .toNum)
    else
      let convD := c.cells.map (toDatetimeCell orc)
      if notnaFrac convD > Rat.divInt 4 5 then ({ c with dtype := .datetime, cells := convD }, .toDt)
      else (c, .keep)
  else (c, .keep)

def dtmBody (orc : Oracles) (tc : Option String) (_cfg : Params) (w : Work) : StageResult :=
  let step := w.df.names.foldl (fun (acc : Work × Nat) n =>
    if some n = tc then acc
    else
      match acc.1.df.getCol? n with
      | none => acc
      | some c =>
        match convertColumn orc c with
        | (c1, .toNum) =>
          let numeric1 := if acc.1.numericCols.contains n then acc.1.numericCols
            else acc.1.numericCols ++ [n]
          let log1 := acc.1.log ++ ["Converted " ++ n ++ " from object to numeric"]
          ({ acc.1 with
             df := acc.1.df.setCol c1,
             numericCols := numeric1,
             categoricalCols := acc.1.categoricalCols.erase n,
             log := log1 }, acc.2 + 1)
        | (c1, .toDt) =>
          let log1 := acc.1.log ++ ["Converted " ++ n ++ " from object to datetime"]
          ({ acc.1 with
             df := acc.1.df.setCol c1,
             datetimeCols := acc.1.datetimeCols ++ [n],
             categoricalCols := acc.1.categoricalCols.erase n,
             log := log1 }, acc.2 + 1)
        | (_, .keep) => acc) (w, 0)
  .ok { step.1 with stats := statsSet step.1.stats "data_type_mismatch" [("columns_converted", .i step.2)] }

/-! ### Stage 5: `_handle_inconsistent_formats` -/

def isWs (c : Char) : Bool :=
  c = ' ' ∨ c = '\t' ∨ c = '\n' ∨ c = '\r'

def lowerStr (s : String) : String :=
  ⟨s.data.map Char.toLower⟩

def trimStr (s : String) : String :=
  ⟨((s.data.dropWhile isWs).reverse.dropWhile isWs).reverse⟩

/-- Removal of the characters matched by the phone pattern `[\+\-\(\)\s]`. -/
def stripPhoneChars (s : String) : String :=
  ⟨s.data.filter (fun c => ¬ (c = '+' ∨ c = '-' ∨ c = '(' ∨ c = ')' ∨ isWs c))⟩

/-- Collapse every maximal run of whitespace to a single space
(`str.replace(regex whitespace-run, single space)`). -/
def collapseWs (s : String) : String :=
  ⟨(s.data.foldr (fun c (acc : List Char × Bool) =>
    if isWs c then (if acc.2 then acc.1 else ' ' :: acc.1, true)
    else (c :: acc.1, false)) ([], false)).1⟩

/-- Whether the string contains three or more consecutive digits
(the pattern `\d` three-plus). -/
def hasDigitRun (s : String) : Bool :=
  go s.data 0
where
  go : List Char → Nat → Bool
    | [], _ => false
    | c :: rest, run =>
      if c.isDigit then (if run + 1 ≥ 3 then true else go rest (run + 1))
      else go rest 0

/-- `astype(str).str.lower().str.strip()` on one cell. -/
def emailFix (c : Cell) : Cell := .str (trimStr (lowerStr (cellToStr c)))

/-- `astype(str).str.replace(phone_pattern, empty)` on one cell. -/
def phoneFix (c : Cell) : Cell := .str (stripPhoneChars (cellToStr c))

/-- `astype(str).str.strip().str.replace(whitespace-run, space)` on one
cell. -/
def cleanFix (c : Cell) : Cell := .str (collapseWs (trimStr (cellToStr c)))

/-- Email standardization: applied column-wide when any rendered cell
contains an at-sign. -/
def emailPhase (cells : List Cell) : List Cell × Bool :=
  if cells.any (fun c => (cellToStr c).contains '@') then (cells.map emailFix, true)
  else (cells, false)

/-- Phone standardization: applied column-wide when any rendered cell
contains three consecutive digits. -/
def phonePhase (cells : List Cell) : List Cell × Bool :=
  if cells.any (fun c => hasDigitRun (cellToStr c)) then (cells.map phoneFix, true)
  else (cells, false)

/-- Unconditional generic text cleaning: `astype(str).str.strip()` then
whitespace-run collapsing. -/
def cleanPhase (cells : List Cell) : List Cell :=
  cells.map cleanFix

/-- The full per-column normalization as the stage performs it, with the two
conditional branch flags. -/
def normalizeColumn (cells : List Cell) : List Cell × Bool × Bool :=
  let e := emailPhase cells
  let p := phonePhase e.1
  (cleanPhase p.1, e.2, p.2)

/-- One iteration of the format-normalization loop, for one categorical
column name. -/
def incStep (acc : Work × Nat) (c : String) : Work × Nat :=
  if acc.1.df.names.contains c then
    let cells := colCells acc.1.df c
    let n := normalizeColumn cells
    let w1 :=
      if n.2.1 then { acc.1 with log := acc.1.log ++ ["Standardized email formats in " ++ c] }
      else acc.1
    let w2 :=
      if n.2.2 then { w1 with log := w1.log ++ ["Standardized phone formats in " ++ c] }
      else w1
    ({ w2 with df := acc.1.df.setCol ⟨c, .object, n.1⟩ },
     acc.2 + (if n.2.1 then 1 else 0) + (if n.2.2 then 1 else 0))
  else acc

def incBody (_cfg : Params) (w : Work) : StageResult :=
  let res := w.categoricalCols.foldl incStep (w, 0)
  .ok { res.1 with stats := statsSet res.1.stats "inconsistent_formats" [("columns_fixed", .i res.2)] }

/-! ### Stage 6: `_handle_outliers` -/

def outMedianLoop (mask : List Bool) :
    List String → DataFrame → Except (DataFrame × String) DataFrame
  | [], df => .ok df
  | c :: rest, df =>
    if df.names.contains c then
      match df.getCol? c with
      | none => outMedianLoop mask rest df
      | some col =>
        match medianE col.cells with
        | .error e => .error (df, e)
        | .ok mo =>
          let mval : Cell := match mo with | some q => .num q | none => .null
          let cells1 := (List.range col.cells.length).map (fun i =>
            if mask.getD i false then mval else col.cells.getD i .null)
          outMedianLoop mask rest (df.setCol ⟨c, col.dtype, cells1⟩)
    else outMedianLoop mask rest df

def outBody (orc : Oracles) (amb : Nat) (cfg : Params) (w : Work) : StageResult :=
  if w.numericCols.length > 0 then
    match w.df.subDf w.numericCols with
    | .error e => .error (w, e)
    | .ok sub =>
      match numParam cfg "contamination" (Rat.divInt 1 10) with
      | .error e => .error (w, e)
      | .ok contamination =>
        match orc.isoforest (seedArg (some 42) amb) contamination sub with
        | .error e => .error (w, e)
        | .ok mask =>
          if mask.any id then
            if mask.length = w.df.nrows then
              match outMedianLoop mask w.numericCols w.df with
              | .error (df1, e) => .error ({ w with df := df1 }, e)
              | .ok df1 =>
                let removed := mask.count true
                let msg := "Handled " ++ toString removed ++
                  " outlier records using Isolation Forest"
                let rec1 : StatRec := [("outliers_detected", .i removed),
                  ("method", .s "isolation_forest")]
                .ok { w with
                      df := df1,
                      log := w.log ++ [msg],
                      stats := statsSet w.stats "outliers" rec1 }
            else .error (w, "IndexError: boolean index length mismatch")
          else
            let rec0 : StatRec := [("outliers_detected", .i 0),
              ("method", .s "isolation_forest")]
            .ok { w with stats := statsSet w.stats "outliers" rec0 }
  else
    let rec0 : StatRec := [("outliers_detected", .i 0), ("method", .s "isolation_forest")]
    .ok { w with stats := statsSet w.stats "outliers" rec0 }

/-! ### Stage 7: `_handle_cardinality` -/

def cardLoop (cfg : Params) :
    List String → Work → List String → Except (Work × String) (Work × List String)
  | [], w, hc => .ok (w, hc)
  | c :: rest, w, hc =>
    if w.df.names.contains c then
      match w.df.getCol? c with
      | none => cardLoop cfg rest w hc
      | some col =>
        let card := nuniqueCells col.cells
        match natParam cfg "max_cardinality" 100 with
        | .error e => .error (w, e)
        | .ok mc =>
          if card > mc then
            let vc := valueCounts col.cells
            let top := (vc.take mc).map (·.1)
            let cells1 := col.cells.map (fun x => if top.contains x then x else .str "Other")
            let msg := "Reduced cardinality in " ++ c ++ " from " ++
              toString card ++ " to " ++ toString (nuniqueCells cells1)
            let w1 := { w with df := w.df.setCol ⟨c, col.dtype, cells1⟩, log := w.log ++ [msg] }
            cardLoop cfg rest w1 (hc ++ [c])
          else cardLoop cfg rest w hc
    else cardLoop cfg rest w hc

def cardBody (cfg : Params) (w : Work) : StageResult :=
  match cardLoop cfg w.categoricalCols w [] with
  | .error e => .error e
  | .ok (w1, hc) =>
    let rec1 : StatRec := [("high_cardinality_columns", .i hc.length),
      ("columns_modified", .strs hc)]
    .ok { w1 with stats := statsSet w1.stats "cardinality" rec1 }

/-! ### Stage 8: `_handle_low_variance_features` -/

/-- Population variance (ddof = 0), as `VarianceThreshold` computes it. -/
def popVar (l : List ℚ) : ℚ :=
  let m := qdiv (qsum l) (qnat l.length)
  qdiv (qsum (l.map (fun x => qmul (qsub x m) (qsub x m)))) (qnat l.length)

/-- Extraction of the float matrix `fit` performs: raises on missing or
non-numeric cells. Column-major. -/
def toMatrix (df : DataFrame) : Except String (List (List ℚ)) :=
  df.cols.mapM (fun c => c.cells.mapM (fun x =>
    match x with
    | .num q => .ok q
    | .null => .error "ValueError: input contains NaN"
    | _ => .error "ValueError: could not convert data to float"))

def lvBody (cfg : Params) (w : Work) : StageResult :=
  if w.numericCols.length > 0 then
    match numParam cfg "threshold" (Rat.divInt 1 100) with
    | .error e => .error (w, e)
    | .ok thr =>
      match w.df.subDf w.numericCols with
      | .error e => .error (w, e)
      | .ok sub =>
        match toMatrix sub with
        | .error e => .error (w, e)
        | .ok mat =>
          if w.df.nrows = 0 then .error (w, "ValueError: 0 samples")
          else
            let support := mat.map (fun colvals => decide (thr < popVar colvals))
            if support.all (fun b => !b) then
              .error (w, "ValueError: no feature in X meets the variance threshold")
            else
              let selected := ((w.numericCols.zip support).filter (·.2)).map (·.1)
              let removed := w.numericCols.filter (fun c => !(selected.contains c))
              let rec1 : StatRec := [("features_removed", .i removed.length),
                ("removed_features", .strs removed)]
              if removed.isEmpty then
                .ok { w with stats := statsSet w.stats "low_variance" rec1 }
              else
                let msg := "Removed " ++ toString removed.length ++
                  " low variance features: " ++ renderStrs removed
                .ok { w with
                      df := w.df.dropCols removed,
                      numericCols := w.numericCols.filter (fun c => !(removed.contains c)),
                      log := w.log ++ [msg],
                      stats := statsSet w.stats "low_variance" rec1 }
  else
    let rec1 : StatRec := [("features_removed", .i 0), ("removed_features", .strs [])]
    .ok { w with stats := statsSet w.stats "low_variance" rec1 }

/-! ### Stage 9: `_handle_feature_correlation` -/

/-- Comparison of an upper-triangle correlation entry against the threshold;
a NaN entry (`none`) never exceeds it. -/
def optGtQ (o : Option ℚ) (t : ℚ) : Bool :=
  match o with
  | some v => decide (t < v)
  | none => false

/-- The single-pass upper-triangle marking: column `j` is marked when some
earlier column `i < j` has `|corr| > threshold` with it. -/
def corrToRemove (orc : Oracles) (sub : DataFrame) (ns : List String) (thr : ℚ) :
    List String :=
  ((List.range ns.length).filter (fun j =>
    (List.range j).any (fun i => optGtQ (orc.corrAbs sub i j) thr))).map
    (fun j => ns.getD j "")

def corrBody (orc : Oracles) (cfg : Params) (w : Work) : StageResult :=
  if w.numericCols.length > 1 then
    match w.df.subDf w.numericCols with
    | .error e => .error (w, e)
    | .ok sub =>
      match numParam cfg "threshold" (Rat.divInt 9 10) with
      | .error e => .error (w, e)
      | .ok thr =>
        let toRemove := corrToRemove orc sub w.numericCols thr
        let rec1 : StatRec := [("features_removed", .i toRemove.length),
          ("removed_features", .strs toRemove)]
        if toRemove.isEmpty then
          .ok { w with stats := statsSet w.stats "feature_correlation" rec1 }
        else
          let msg := "Removed " ++ toString toRemove.length ++
            " highly correlated features: " ++ renderStrs toRemove
          .ok { w with
                df := w.df.dropCols toRemove,
                numericCols := w.numericCols.filter (fun c => !(toRemove.contains c)),
                log := w.log ++ [msg],
                stats := statsSet w.stats "feature_correlation" rec1 }
  else
    let rec1 : StatRec := [("features_removed", .i 0), ("removed_features", .strs [])]
    .ok { w with stats := statsSet w.stats "feature_correlation" rec1 }

/-! ### Stage 10: `_handle_mean_median_drift` -/

def driftLoop (orc : Oracles) (cfg : Params) :
    List String → Work → List String → Except (Work × String) (Work × List String)
  | [], w, dc => .ok (w, dc)
  | c :: rest, w, dc =>
    if w.df.names.contains c then
      let cells := colCells w.df c
      match meanE cells with
      | .error e => .error (w, e)
      | .ok none => driftLoop orc cfg rest w dc
      | .ok (some m) =>
        if m ≠ 0 then
          match medianE cells with
          | .error e => .error (w, e)
          | .ok none => driftLoop orc cfg rest w dc
          | .ok (some md) =>
            let driftPct := qmul (qabs (qdiv (qsub m md) m)) 100
            match numParam cfg "threshold" (Rat.divInt 1 5) with
            | .error e => .error (w, e)
            | .ok thr =>
              if driftPct > qmul thr 100 then
                if cells.all (fun x => match x with | .num q => decide (0 < q) | _ => false) then
                  let msg := "Applied log transformation to " ++ c ++
                    " due to high mean-median drift (" ++ toString driftPct ++ ")"
                  let w1 := { w with
                    df := w.df.mapColKeep c (fun cs => cs.map (fun x =>
                      match x with | .num q => .num (orc.log1p q) | other => other)),
                    log := w.log ++ [msg] }
                  driftLoop orc cfg rest w1 (dc ++ [c])
                else driftLoop orc cfg rest w (dc ++ [c])
              else driftLoop orc cfg rest w dc
        else driftLoop orc cfg rest w dc
    else driftLoop orc cfg rest w dc

def driftBody (orc : Oracles) (cfg : Params) (w : Work) : StageResult :=
  match driftLoop orc cfg w.numericCols w [] with
  | .error e => .error e
  | .ok (w1, dc) =>
    let rec1 : StatRec := [("columns_with_drift", .i dc.length),
      ("transformed_columns", .strs dc)]
    .ok { w1 with stats := statsSet w1.stats "mean_median_drift" rec1 }

/-! ### Stage 11: `_handle_range_violations` -/

def rangeLoop (orc : Oracles) :
    List String → Work → Nat → Except (Work × String) (Work × Nat)
  | [], w, cnt => .ok (w, cnt)
  | c :: rest, w, cnt =>
    if w.df.names.contains c then
      let cells := colCells w.df c
      match meanE cells with
      | .error e => .error (w, e)
      | .ok mo =>
        match mo, orc.stdev (numsOf cells) with
        | some m, some sd =>
          let lower := qsub m (qmul 3 sd)
          let upper := qadd m (qmul 3 sd)
          let violations := cells.countP (fun x =>
            match x with | .num q => decide (q < lower) ∨ decide (upper < q) | _ => false)
          if violations > 0 then
            let w1 := { w with
              df := w.df.mapColKeep c (fun cs => cs.map (fun x =>
                match x with
                | .num q =>
                  let q1 := if q < lower then lower else q
                  .num (if upper < q1 then upper else q1)
                | other => other)),
              log := w.log ++ ["Fixed " ++ toString violations ++
                " range violations in " ++ c] }
            rangeLoop orc rest w1 (cnt + violations)
          else rangeLoop orc rest w cnt
        | _, _ => rangeLoop orc rest w cnt
    else rangeLoop orc rest w cnt

def rangeBody (orc : Oracles) (_cfg : Params) (w : Work) : StageResult :=
  match rangeLoop orc w.numericCols w 0 with
  | .error e => .error e
  | .ok (w1, cnt) =>
    .ok { w1 with stats := statsSet w1.stats "range_violations" [("violations_fixed", .i cnt)] }

/-! ### Stage 12: `_handle_class_imbalance` -/

def cibBody (orc : Oracles) (amb : Nat) (tc : Option String) (_cfg : Params)
    (w : Work) : StageResult :=
  match tc with
  | none => .ok w
  | some t =>
    if t = "" then .ok w
    else if w.df.names.contains t then
      match w.df.getCol? t with
      | none => .ok w
      | some tcol =>
        if tcol.dtype = .object ∨ nuniqueCells tcol.cells < 10 then
          let counts := (valueCounts tcol.cells).map (·.2)
          match counts.min?, counts.max? with
          | some cmin, some cmax =>
            let ratio := qdiv (qnat cmin) (qnat cmax)
            if ratio < Rat.divInt 1 2 then
              let featureCols := w.df.names.filter (fun n => n ≠ t)
              match w.df.subDf featureCols with
              | .error e => .error (w, e)
              | .ok x =>
                match orc.dummies x with
                | .error e => .error (w, e)
                | .ok xe =>
                  match orc.smote (seedArg (some 42) amb) xe tcol.cells with
                  | .error e => .error (w, e)
                  | .ok (xr, yr) =>
                    if xr.cols.length = xe.cols.length then
                      let newCols := (xr.cols.zip xe.names).map
                        (fun p => { p.1 with name := p.2 })
                      let df1 : DataFrame := ⟨newCols ++ [⟨t, tcol.dtype, yr⟩]⟩
                      let msg := "Applied SMOTE to balance target variable. New shape: (" ++
                        toString df1.nrows ++ ", " ++ toString df1.ncols ++ ")"
                      let rec1 : StatRec := [("original_ratio", .q ratio),
                        ("method", .s "smote"),
                        ("original_shape", .i tcol.cells.length),
                        ("new_shape", .i yr.length)]
                      .ok { w with
                            df := df1,
                            log := w.log ++ [msg],
                            stats := statsSet w.stats "class_imbalance" rec1 }
                    else .error (w, "ValueError: shape mismatch in resampled data")
            else .ok w
          | _, _ => .ok w
        else .ok w
    else .ok w

/-! ### The twelve `_handle_*` methods and `preprocess_all` -/

abbrev StageFn := Oracles → Nat → Env → Work → StageResult

def handleMissingValues : StageFn := fun orc amb env w =>
  stageWrap "missing_values" "Error in missing values handling: " (mvBody orc amb) env w

def handleDuplicates : StageFn := fun _orc _amb env w =>
  stageWrap "duplicates" "Error in duplicate handling: " dupBody env w

def handleInvalidData : StageFn := fun orc _amb env w =>
  stageWrap "invalid_data" "Error in invalid data handling: " (invBody orc) env w

def handleDataTypeMismatches : StageFn := fun orc _amb env w =>
  stageWrap "data_type_mismatch" "Error in data type handling: " (dtmBody orc env.targetCol) env w

def handleInconsistentFormats : StageFn := fun _orc _amb env w =>
  stageWrap "inconsistent_formats" "Error in format handling: " incBody env w

def handleOutliers : StageFn := fun orc amb env w =>
  stageWrap "outliers" "Error in outlier handling: " (outBody orc amb) env w

def handleCardinality : StageFn := fun _orc _amb env w =>
  stageWrap "cardinality" "Error in cardinality handling: " cardBody env w

def handleLowVarianceFeatures : StageFn := fun _orc _amb env w =>
  stageWrap "low_variance" "Error in low variance handling: " lvBody env w

def handleFeatureCorrelation : StageFn := fun orc _amb env w =>
  stageWrap "feature_correlation" "Error in correlation handling: " (corrBody orc) env w

def handleMeanMedianDrift : StageFn := fun orc _amb env w =>
  stageWrap "mean_median_drift" "Error in mean-median drift handling: " (driftBody orc) env w

def handleRangeViolations : StageFn := fun orc _amb env w =>
  stageWrap "range_violations" "Error in range violation handling: " (rangeBody orc) env w

def handleClassImbalance : StageFn := fun orc amb env w =>
  stageWrap "class_imbalance" "Error in class imbalance handling: " (cibBody orc amb env.targetCol) env w

/-- The fixed stage sequence of `preprocess_all`, with each stage guarded by
`if not cfg or cfg.get(key, True):`. -/
def stagePairs : List (String × StageFn) :=
  [("missing_values", handleMissingValues),
   ("duplicates", handleDuplicates),
   ("invalid_data", handleInvalidData),
   ("data_type_mismatch", handleDataTypeMismatches),
   ("inconsistent_formats", handleInconsistentFormats),
   ("outliers", handleOutliers),
   ("cardinality", handleCardinality),
   ("low_variance", handleLowVarianceFeatures),
   ("feature_correlation", handleFeatureCorrelation),
   ("mean_median_drift", handleMeanMedianDrift),
   ("range_violations", handleRangeViolations),
   ("class_imbalance", handleClassImbalance)]

/-- One guarded stage invocation inside `preprocess_all`. -/
def runFactor (key : String) (f : StageFn) (orc : Oracles) (amb : Nat)
    (env : Env) (w : Work) : StageResult :=
  match guardVal env.config key with
  | .error e => .error (w, e)
  | .ok true => f orc amb env w
  | .ok false => .ok w

def runStages (pairs : List (String × StageFn)) (orc : Oracles) (amb : Nat)
    (env : Env) (w : Work) : StageResult :=
  match pairs with
  | [] => .ok w
  | (k, f) :: rest =>
    match runFactor k f orc amb env w with
    | .error e => .error e
    | .ok w1 => runStages rest orc amb env w1

/-- `_generate_preprocessing_report`. -/
def generateReport (env : Env) (w : Work) : Work :=
  let oRows := env.originalDf.nrows
  let oCols := env.originalDf.ncols
  let fRows := w.df.nrows
  let fCols := w.df.ncols
  let total := getStatI w.stats "missing_values" "before" +
    getStatI w.stats "duplicates" "removed" +
    getStatI w.stats "outliers" "outliers_detected" +
    getStatI w.stats "range_violations" "violations_fixed"
  let rec1 : StatRec := [("original_shape", .pr oRows oCols),
    ("final_shape", .pr fRows fCols),
    ("rows_changed", .i ((oRows : Int) - (fRows : Int))),
    ("columns_changed", .i ((oCols : Int) - (fCols : Int))),
    ("preprocessing_steps", .i w.log.length),
    ("total_changes", .i total)]
  { w with stats := statsSet w.stats "summary" rec1 }

/-- `preprocess_all`: run the guarded stage sequence under the outermost
`try/except`; on success generate the report and return the processed
dataset, on an escaped exception log it to the service logger and return the
original, untouched input dataset.  The function is total: no exception ever
reaches the caller. -/
def preprocessAll (orc : Oracles) (amb : Nat) (env : Env) (w : Work) :
    Work × DataFrame :=
  match runStages stagePairs orc amb env w with
  | .ok w1 =>
    let w2 := generateReport env w1
    (w2, w2.df)
  | .error (w1, e) =>
    ({ w1 with errlog := w1.errlog ++ ["Error during preprocessing: " ++ e] },
     env.originalDf)

/-- The same pipeline with one stage not invoked at all (its guarded call
removed from the sequence). -/
def preprocessAllWithout (key : String) (orc : Oracles) (amb : Nat)
    (env : Env) (w : Work) : Work × DataFrame :=
  match runStages (stagePairs.filter (fun p => p.1 ≠ key)) orc amb env w with
  | .ok w1 =>
    let w2 := generateReport env w1
    (w2, w2.df)
  | .error (w1, e) =>
    ({ w1 with errlog := w1.errlog ++ ["Error during preprocessing: " ++ e] },
     env.originalDf)

/-- `AdvancedDataPreprocessor.__init__`: copy the frame, resolve the
configuration (`preprocessing_config or default`), classify columns by dtype,
and remove a truthy target from the feature lists. -/
def mkEnvWork (df : DataFrame) (tc : Option String) (rc : Option RawConfig) :
    Env × Work :=
  let config := match rc with
    | none => defaultRawConfig
    | some c => if truthyRaw c then c else defaultRawConfig
  let numeric0 := (df.cols.filter (fun c => c.dtype = .numeric)).map (·.name)
  let cat0 := (df.cols.filter (fun c => c.dtype = .object)).map (·.name)
  let numeric1 := match tc with
    | some t => if t ≠ "" ∧ numeric0.contains t then numeric0.erase t else numeric0
    | none => numeric0
  let cat1 := match tc with
    | some t => if t ≠ "" ∧ cat0.contains t then cat0.erase t else cat0
    | none => cat0
  (⟨df, tc, config⟩, ⟨df, numeric1, cat1, [], [], [], []⟩)

/-- Construct the preprocessor and run `preprocess_all`, as the HTTP handler
does. -/
def runPipeline (orc : Oracles) (amb : Nat) (df : DataFrame)
    (tc : Option String) (rc : Option RawConfig) : Work × DataFrame :=
  let ew := mkEnvWork df tc rc
  preprocessAll orc amb ew.1 ew.2

/-! ### Concrete oracle instances used for witnesses and counterexamples -/

/-- Parse a nonempty all-digit character list as a natural number (a small
concrete stand-in for numeric string parsing, kept structural so that
concrete runs reduce). -/
def parseNatDigits (l : List Char) : Option Nat :=
  match l with
  | [] => none
  | _ =>
    if l.all (fun c => c.isDigit) then
      some (l.foldl (fun n c => n * 10 + (c.toNat - 48)) 0)
    else none

/-- A simple total oracle family: the imputer fills missing numeric entries
with zero, the isolation forest flags nothing, SMOTE is unavailable, the
correlation matrix is all NaN, the chi-square test returns p = 1, and string
parsing accepts decimal digit strings. -/
def oraclesTriv : Oracles where
  mice := fun _ sub => .ok (sub.cols.map (fun c => c.cells.map (fun x =>
    match x with | .num q => q | _ => 0)))
  isoforest := fun _ _ sub => .ok (List.replicate sub.nrows false)
  smote := fun _ _ _ => .error "smote unavailable"
  dummies := fun x => .ok x
  corrAbs := fun _ _ _ => none
  chi2p := fun _ _ => .ok (0, 1)
  stdev := fun _ => none
  log1p := fun q => q
  parseNum := fun s => (parseNatDigits s.data).map (fun n => qnat n)
  parseDate := fun _ => none

/-- The trivial oracle family with an imputer that raises. -/
def oraclesBoom : Oracles :=
  { oraclesTriv with mice := fun _ _ => .error "boom" }

end PrepAPI

deriving instance DecidableEq for Except

namespace PrepAPI

/-! ### Claim C4: configuration resolution -/

/-- Merge a supplied parameter object over defaults: explicit keys win,
absent keys take their default values. -/
def mergeParams (dflt o : Params) : Params :=
  (dflt.map (fun p => match lookupP o p.1 with | some v => (p.1, v) | none => p)) ++
  o.filter (fun p => ¬ dflt.any (fun d => d.1 = p.1))

/-- Modelled from the spec (for comparison only): the resolution the
specification describes, in which an object value is merged over the
built-in defaults so that keys absent from the supplied object take their
built-in default values.  `getFactorConfig` above is the resolution the
source implements. -/
def getFactorConfigSpec (c : RawConfig) (key : String) : Except String (Option Params) :=
  match c with
  | .nonDict => .error "AttributeError: config has no attribute get"
  | .dict l =>
    match lookupCV l key with
    | none => .ok (some (defaultFactor key))
    | some (.obj o) => .ok (some (mergeParams (defaultFactor key) o))
    | some (.bool true) => .ok (some (defaultFactor key))
    | some (.bool false) => .ok none

/-- A partial object for the missing-value factor: `method` given,
`max_missing_threshold` omitted. -/
def cfgC4 : RawConfig := .dict [("missing_values", .obj [("method", .s "mice")])]

/-- C4, counterexample: a supplied object is NOT merged over the built-in
defaults.  `_get_factor_config` returns the partial object as-is, so the
omitted key `max_missing_threshold` is absent from the effective
configuration, whereas the claimed merge would supply its default 0.5. -/
theorem c4_counterexample :
    getFactorConfig cfgC4 "missing_values" ≠ getFactorConfigSpec cfgC4 "missing_values" ∧
    getFactorConfig cfgC4 "missing_values" = .ok (some [("method", .s "mice")]) ∧
    getFactorConfigSpec cfgC4 "missing_values" =
      .ok (some [("method", .s "mice"), ("max_missing_threshold", .q (Rat.divInt 1 2))]) := by
  refine ⟨by decide, rfl, rfl⟩

/-- C4 (amended): the effective per-stage configuration is resolved as:
an absent stage key yields the built-in defaults with the stage enabled; a
`false` value disables the stage; a `true` value yields the built-in
defaults; an object value is used exactly as supplied, with no merging over
the built-in defaults. -/
theorem c4_amended (l : List (String × ConfigVal)) (key : String) :
    (lookupCV l key = none →
      getFactorConfig (.dict l) key = .ok (some (defaultFactor key))) ∧
    (lookupCV l key = some (.bool false) → getFactorConfig (.dict l) key = .ok none) ∧
    (lookupCV l key = some (.bool true) →
      getFactorConfig (.dict l) key = .ok (some (defaultFactor key))) ∧
    (∀ o, lookupCV l key = some (.obj o) →
      getFactorConfig (.dict l) key = .ok (some o)) := by
  refine ⟨fun h => ?_, fun h => ?_, fun h => ?_, fun o h => ?_⟩ <;>
    simp [getFactorConfig, h]

/-- C4 (amended), witness at concrete configurations: each branch of the
resolution evaluated on an explicit input. -/
theorem c4_amended_witness :
    getFactorConfig (.dict []) "outliers" = .ok (some (defaultFactor "outliers")) ∧
    getFactorConfig (.dict [("outliers", .bool false)]) "outliers" = .ok none ∧
    getFactorConfig (.dict [("outliers", .bool true)]) "outliers" =
      .ok (some (defaultFactor "outliers")) ∧
    getFactorConfig cfgC4 "missing_values" = .ok (some [("method", .s "mice")]) :=
  ⟨(c4_amended [] "outliers").1 rfl,
   (c4_amended [("outliers", .bool false)] "outliers").2.1 rfl,
   (c4_amended [("outliers", .bool true)] "outliers").2.2.1 rfl,
   (c4_amended [("missing_values", .obj [("method", .s "mice")])] "missing_values").2.2.2
     [("method", .s "mice")] rfl⟩

/-! ### Claim C1: behavior on total pipeline failure -/

/-- C1 (amended): when an exception escapes the stage orchestration,
`preprocess_all` catches it (the call never raises), returns the original
input dataset unchanged, and records the failure only in the service error
log; the preprocessing report — the log and stats accumulated so far — is
returned exactly as it was, with no entry documenting the failure. -/
theorem c1_amended (orc : Oracles) (amb : Nat) (df : DataFrame) (tc : Option String)
    (rc : Option RawConfig) (w1 : Work) (e : String)
    (h : runStages stagePairs orc amb (mkEnvWork df tc rc).1 (mkEnvWork df tc rc).2 =
      .error (w1, e)) :
    runPipeline orc amb df tc rc =
      ({ w1 with errlog := w1.errlog ++ ["Error during preprocessing: " ++ e] }, df) := by
  simp only [runPipeline, preprocessAll, h]
  rfl

def dfC1 : DataFrame := ⟨[⟨"x", .numeric, [.num 1, .num 2]⟩]⟩

/-- C1, counterexample: with a non-dict configuration value the orchestration
raises `AttributeError` at the very first stage guard.  The call indeed does
not raise and returns the input dataset unchanged, but the report does NOT
document the failure: the preprocessing log and stats are both empty, and the
error goes only to the service logger. -/
theorem c1_counterexample :
    (runPipeline oraclesTriv 0 dfC1 none (some .nonDict)).2 = dfC1 ∧
    (runPipeline oraclesTriv 0 dfC1 none (some .nonDict)).1.log = [] ∧
    (runPipeline oraclesTriv 0 dfC1 none (some .nonDict)).1.stats = [] ∧
    (runPipeline oraclesTriv 0 dfC1 none (some .nonDict)).1.errlog =
      ["Error during preprocessing: AttributeError: config has no attribute get"] := by
  decide

/-- C1 (amended), witness: the amended theorem applied at a concrete failing
run. -/
theorem c1_amended_witness :
    runPipeline oraclesTriv 0 dfC1 none (some .nonDict) =
      ({ df := dfC1, numericCols := ["x"], categoricalCols := [], datetimeCols := [],
         log := [], stats := [],
         errlog := ["Error during preprocessing: AttributeError: config has no attribute get"] },
       dfC1) :=
  c1_amended oraclesTriv 0 dfC1 none (some .nonDict)
    ⟨dfC1, ["x"], [], [], [], [], []⟩ "AttributeError: config has no attribute get" (by decide)

/-! ### Claim C2: per-stage exception handling -/

theorem getFactorConfig_dict_ok (l : List (String × ConfigVal)) (key : String) :
    ∃ o, getFactorConfig (.dict l) key = .ok o := by
  simp only [getFactorConfig]
  split <;> exact ⟨_, rfl⟩

theorem guardVal_dict_ok (l : List (String × ConfigVal)) (key : String) :
    ∃ b, guardVal (.dict l) key = .ok b := by
  simp only [guardVal, truthyRaw]
  split
  · split <;> exact ⟨_, rfl⟩
  · rename_i heq
    split at heq <;> simp at heq

/-- With a dict configuration, a `_handle_*` method never lets an exception
escape: the only raising position outside the stage `try` is the
`.get` call in `_get_factor_config`, which succeeds on dicts, and every
exception inside the body is caught and downgraded to an error-log line. -/
theorem stageWrap_ok (key tag : String) (body : Params → Work → StageResult)
    (env : Env) (w : Work) (l : List (String × ConfigVal)) (hc : env.config = .dict l) :
    ∃ w1, stageWrap key tag body env w = .ok w1 := by
  unfold stageWrap
  rw [hc]
  obtain ⟨o, ho⟩ := getFactorConfig_dict_ok l key
  rcases o with _ | cfg
  · simp only [ho]
    exact ⟨_, rfl⟩
  · simp only [ho]
    rcases h : body cfg w with w1 | ⟨w1, e⟩ <;> simp only [h] <;> exact ⟨_, rfl⟩

theorem runStages_ok (orc : Oracles) (amb : Nat) (env : Env)
    (l : List (String × ConfigVal)) (hc : env.config = .dict l) :
    ∀ (pairs : List (String × StageFn)),
      (∀ p ∈ pairs, ∀ w : Work, ∃ w1, p.2 orc amb env w = .ok w1) →
      ∀ w : Work, ∃ w1, runStages pairs orc amb env w = .ok w1 := by
  intro pairs
  induction pairs with
  | nil => intro _ w; exact ⟨w, rfl⟩
  | cons hd rest ih =>
    intro hall w
    obtain ⟨k, f⟩ := hd
    obtain ⟨b, hb⟩ := guardVal_dict_ok l k
    unfold runStages runFactor
    rw [hc, hb]
    cases b
    · exact ih (fun p hp => hall p (List.mem_cons_of_mem _ hp)) w
    · obtain ⟨w1, hw1⟩ := hall (k, f) (List.mem_cons_self _ _) w
      have hw2 : f orc amb env w = Except.ok w1 := hw1
      simp only [hw2]
      exact ih (fun p hp => hall p (List.mem_cons_of_mem _ hp)) w1

theorem stagePairs_ok (orc : Oracles) (amb : Nat) (env : Env)
    (l : List (String × ConfigVal)) (hc : env.config = .dict l) :
    ∀ p ∈ stagePairs, ∀ w0 : Work, ∃ w1, p.2 orc amb env w0 = .ok w1 := by
  intro p hp w0
  fin_cases hp <;>
    simp only [handleMissingValues, handleDuplicates, handleInvalidData,
      handleDataTypeMismatches, handleInconsistentFormats, handleOutliers,
      handleCardinality, handleLowVarianceFeatures, handleFeatureCorrelation,
      handleMeanMedianDrift, handleRangeViolations, handleClassImbalance] <;>
    exact stageWrap_ok _ _ _ env w0 l hc

/-- C2 (amended): an exception inside any single stage's logic is caught and
not propagated (with a dict configuration no stage call ever returns an
error), and the pipeline runs all remaining stages to completion, still
returning a dataset.  However the failing stage is NOT a no-op for that run:
the in-place mutations it performed before the exception persist (see the
counterexample). -/
theorem c2_amended (orc : Oracles) (amb : Nat) (env : Env) (w : Work)
    (l : List (String × ConfigVal)) (hc : env.config = .dict l) :
    (∀ p ∈ stagePairs, ∀ w0 : Work, ∃ w1, p.2 orc amb env w0 = .ok w1) ∧
    (∃ wf, runStages stagePairs orc amb env w = .ok wf) :=
  ⟨stagePairs_ok orc amb env l hc,
   runStages_ok orc amb env l hc stagePairs (stagePairs_ok orc amb env l hc) w⟩

/-- Column `a` is 2/3 missing (dropped by the stage before imputation runs);
column `b` still has a missing value, so the MICE imputer is invoked. -/
def dfC2 : DataFrame :=
  ⟨[⟨"a", .numeric, [.num 1, .null, .null]⟩, ⟨"b", .numeric, [.num 1, .null, .num 3]⟩]⟩

def ewC2 := mkEnvWork dfC2 none none

/-- C2, counterexample: when the imputer raises inside
`_handle_missing_values`, the exception is caught (the stage call returns
normally) — but the dataset is NOT as if the stage had not executed: the
column dropped before the exception stays dropped, so the stage is not a
no-op. -/
theorem c2_counterexample :
    (handleMissingValues oraclesBoom 0 ewC2.1 ewC2.2).isOk = true ∧
    (resState (handleMissingValues oraclesBoom 0 ewC2.1 ewC2.2)).df ≠ ewC2.2.df ∧
    (resState (handleMissingValues oraclesBoom 0 ewC2.1 ewC2.2)).df.names = ["b"] ∧
    (resState (handleMissingValues oraclesBoom 0 ewC2.1 ewC2.2)).errlog =
      ["Error in missing values handling: boom"] := by
  decide

/-- C2 (amended), witness: the full stage sequence completes normally on the
concrete failing run. -/
theorem c2_amended_witness :
    ∃ wf, runStages stagePairs oraclesBoom 0 ewC2.1 ewC2.2 = .ok wf :=
  (c2_amended oraclesBoom 0 ewC2.1 ewC2.2 defaultEntries rfl).2

/-! ### Claim C3: disabled stages are complete no-ops -/

theorem guardVal_false (entries : List (String × ConfigVal)) (key : String)
    (hk : lookupCV entries key = some (.bool false)) :
    guardVal (.dict entries) key = .ok false := by
  have hne : entries.isEmpty = false := by
    cases entries
    · simp [lookupCV] at hk
    · rfl
  simp [guardVal, truthyRaw, hne, hk, truthyCV]

/-- A stage whose configuration entry is `false` is skipped at its guard, and
the run is identical to running the sequence with that stage removed. -/
theorem runStages_skipFalse (orc : Oracles) (amb : Nat) (env : Env)
    (entries : List (String × ConfigVal)) (key : String)
    (hc : env.config = .dict entries)
    (hk : lookupCV entries key = some (.bool false)) :
    ∀ (pairs : List (String × StageFn)) (w : Work),
      runStages pairs orc amb env w =
        runStages (pairs.filter (fun p => p.1 ≠ key)) orc amb env w := by
  intro pairs
  induction pairs with
  | nil => intro w; rfl
  | cons hd rest ih =>
    intro w
    obtain ⟨k, f⟩ := hd
    by_cases hkk : k = key
    · subst hkk
      have hg : guardVal env.config k = .ok false := hc ▸ guardVal_false entries k hk
      simp only [runStages, runFactor, hg, List.filter_cons]
      simp only [ne_eq, not_true_eq_false, decide_False, Bool.false_eq_true, if_false]
      exact ih w
    · have hfil : (((k, f) :: rest).filter (fun p => p.1 ≠ key)) =
          (k, f) :: rest.filter (fun p => p.1 ≠ key) := by
        simp [List.filter_cons, hkk]
      rw [hfil]
      simp only [runStages]
      cases hr : runFactor k f orc amb env w with
      | error e => rfl
      | ok w1 => exact ih w1

/-- C3: for every stage name whose configuration entry is `false` and every
input dataset, the whole pipeline run — returned dataset, preprocessing log,
per-stage stats, report — is identical to the run of the pipeline with that
stage's invocation removed entirely.  In particular the disabled stage leaves
the dataset untouched and contributes zero log entries and zero stats
entries. -/
theorem c3_disabled_noop (orc : Oracles) (amb : Nat) (df : DataFrame)
    (tc : Option String) (entries : List (String × ConfigVal)) (key : String)
    (hk : lookupCV entries key = some (.bool false)) :
    runPipeline orc amb df tc (some (.dict entries)) =
      preprocessAllWithout key orc amb (mkEnvWork df tc (some (.dict entries))).1
        (mkEnvWork df tc (some (.dict entries))).2 := by
  have hc : (mkEnvWork df tc (some (.dict entries))).1.config = .dict entries := by
    have hne : entries.isEmpty = false := by
      cases entries
      · simp [lookupCV] at hk
      · rfl
    simp [mkEnvWork, truthyRaw, hne]
  have h0 : runPipeline orc amb df tc (some (.dict entries)) =
      preprocessAll orc amb (mkEnvWork df tc (some (.dict entries))).1
        (mkEnvWork df tc (some (.dict entries))).2 := rfl
  rw [h0]
  unfold preprocessAll preprocessAllWithout
  conv_lhs => rw [runStages_skipFalse orc amb _ entries key hc hk]

def dfC3 : DataFrame :=
  ⟨[⟨"n", .numeric, [.num 1, .num 5]⟩, ⟨"s", .object, [.str "x", .str "y"]⟩]⟩

/-- C3, witness: the theorem applied with the outlier stage disabled on a
concrete dataset. -/
theorem c3_disabled_noop_witness :
    runPipeline oraclesTriv 0 dfC3 none (some (.dict [("outliers", .bool false)])) =
      preprocessAllWithout "outliers" oraclesTriv 0
        (mkEnvWork dfC3 none (some (.dict [("outliers", .bool false)]))).1
        (mkEnvWork dfC3 none (some (.dict [("outliers", .bool false)]))).2 :=
  c3_disabled_noop oraclesTriv 0 dfC3 none [("outliers", .bool false)] "outliers" rfl

/-! ### Claim C5: column classification after the missing-value stage -/

theorem mvBody_cols (orc : Oracles) (amb : Nat) (cfg : Params) (w : Work) :
    (resState (mvBody orc amb cfg w)).numericCols = w.numericCols ∧
    (resState (mvBody orc amb cfg w)).categoricalCols = w.categoricalCols := by
  unfold mvBody
  cases mvColsToDrop cfg w.df.cols with
  | error e => exact ⟨rfl, rfl⟩
  | ok cols =>
    cases h : mvCore orc amb cfg w.numericCols w.categoricalCols w.df w.log with
    | error pe =>
      obtain ⟨⟨dfe, loge⟩, e⟩ := pe
      simp [resState]
    | ok p =>
      obtain ⟨dff, logf⟩ := p
      simp [resState]

/-- `_handle_missing_values` never writes the classification lists: they are
not recomputed after columns are dropped. -/
theorem handleMissingValues_cols (orc : Oracles) (amb : Nat) (env : Env) (w : Work) :
    (resState (handleMissingValues orc amb env w)).numericCols = w.numericCols ∧
    (resState (handleMissingValues orc amb env w)).categoricalCols = w.categoricalCols := by
  unfold handleMissingValues stageWrap
  cases getFactorConfig env.config "missing_values" with
  | error e => exact ⟨rfl, rfl⟩
  | ok o =>
    cases o with
    | none => exact ⟨rfl, rfl⟩
    | some cfg =>
      have hb := mvBody_cols orc amb cfg w
      cases h : mvBody orc amb cfg w with
      | ok w1 => simpa [resState, h] using hb
      | error pe =>
        obtain ⟨w1, e⟩ := pe
        simp only [h, resState] at hb ⊢
        exact hb

theorem getCol?_none_of_not_mem (df : DataFrame) (c : String)
    (h : c ∉ df.names) : df.getCol? c = none := by
  unfold DataFrame.getCol?
  rw [List.find?_eq_none]
  intro col hcol hname
  exact h (List.mem_map.mpr ⟨col, hcol, of_decide_eq_true hname⟩)

theorem subCols_err (df : DataFrame) (c : String) :
    ∀ ns : List String, c ∈ ns → df.getCol? c = none →
      ∃ e, df.subCols ns = .error e := by
  intro ns
  induction ns with
  | nil => intro h; cases h
  | cons n rest ih =>
    intro hmem hnone
    rcases List.mem_cons.mp hmem with he | hm
    · subst he
      exact ⟨"KeyError: " ++ c, by simp [DataFrame.subCols, hnone]⟩
    · cases hg : df.getCol? n with
      | none => exact ⟨"KeyError: " ++ n, by simp [DataFrame.subCols, hg]⟩
      | some col =>
        obtain ⟨e, he⟩ := ih hm hnone
        exact ⟨e, by simp [DataFrame.subCols, hg, he]⟩

/-- Indexing `df[ns]` with a name that is no longer a column raises
`KeyError`. -/
theorem subDf_err (df : DataFrame) (c : String) (ns : List String)
    (hmem : c ∈ ns) (hnone : df.getCol? c = none) :
    ∃ e, df.subDf ns = .error e := by
  obtain ⟨e, he⟩ := subCols_err df c ns hmem hnone
  exact ⟨e, by simp [DataFrame.subDf, he]⟩

/-- With a stale numeric-column list, the outlier body raises `KeyError` at
`df[self.numeric_cols]` before doing any work. -/
theorem outBody_stale (orc : Oracles) (amb : Nat) (cfg : Params) (w : Work)
    (c : String) (hc : c ∈ w.numericCols) (hnm : c ∉ w.df.names) :
    ∃ e, outBody orc amb cfg w = .error (w, e) := by
  have hlen : 0 < w.numericCols.length := List.length_pos.mpr (List.ne_nil_of_mem hc)
  obtain ⟨e, he⟩ := subDf_err w.df c w.numericCols hc (getCol?_none_of_not_mem _ _ hnm)
  refine ⟨e, ?_⟩
  unfold outBody
  simp [hlen, he]

theorem handleOutliers_stale (orc : Oracles) (amb : Nat) (env : Env) (w : Work)
    (c : String) (hc : c ∈ w.numericCols) (hnm : c ∉ w.df.names) :
    (resState (handleOutliers orc amb env w)).df = w.df ∧
    (resState (handleOutliers orc amb env w)).log = w.log ∧
    (resState (handleOutliers orc amb env w)).stats = w.stats := by
  unfold handleOutliers stageWrap
  cases getFactorConfig env.config "outliers" with
  | error e => exact ⟨rfl, rfl, rfl⟩
  | ok o =>
    cases o with
    | none => exact ⟨rfl, rfl, rfl⟩
    | some cfg =>
      obtain ⟨e, he⟩ := outBody_stale orc amb cfg w c hc hnm
      simp [he, resState]

/-- C5 (amended): after the missing-value stage drops columns, the numeric
and categorical column lists are NOT recomputed — the stage never writes
them, so they may retain dropped names — and a downstream stage that indexes
the frame by the whole stale numeric list (outlier handling) raises
internally at `df[self.numeric_cols]` and is skipped for that run, leaving
dataset, log and stats untouched; it does not operate on the remaining
columns. -/
theorem c5_amended :
    (∀ (orc : Oracles) (amb : Nat) (env : Env) (w : Work),
      (resState (handleMissingValues orc amb env w)).numericCols = w.numericCols ∧
      (resState (handleMissingValues orc amb env w)).categoricalCols = w.categoricalCols) ∧
    (∀ (orc : Oracles) (amb : Nat) (env : Env) (w : Work) (c : String),
      c ∈ w.numericCols → c ∉ w.df.names →
      (resState (handleOutliers orc amb env w)).df = w.df ∧
      (resState (handleOutliers orc amb env w)).log = w.log ∧
      (resState (handleOutliers orc amb env w)).stats = w.stats) :=
  ⟨handleMissingValues_cols,
   fun orc amb env w c h1 h2 => handleOutliers_stale orc amb env w c h1 h2⟩

def dfC5 : DataFrame :=
  ⟨[⟨"a", .numeric, [.num 1, .null, .null]⟩, ⟨"b", .numeric, [.num 1, .num 2, .num 3]⟩]⟩

def ewC5 := mkEnvWork dfC5 none none

/-- C5, counterexample: on a concrete dataset whose column `a` is 2/3 missing
the stage drops `a`, yet the numeric column list still contains `a`
afterwards — the sets are not recomputed — and the subsequent outlier stage
contributes no stats entry because it fails internally on the stale list
instead of operating on the remaining columns. -/
theorem c5_counterexample :
    (resState (handleMissingValues oraclesTriv 0 ewC5.1 ewC5.2)).df.names = ["b"] ∧
    (resState (handleMissingValues oraclesTriv 0 ewC5.1 ewC5.2)).numericCols = ["a", "b"] ∧
    ((resState (handleOutliers oraclesTriv 0 ewC5.1
        (resState (handleMissingValues oraclesTriv 0 ewC5.1 ewC5.2)))).stats.any
      (fun p => p.1 = "outliers")) = false := by
  decide

def wStale : Work :=
  ⟨⟨[⟨"b", .numeric, [.num 1, .num 2, .num 3]⟩]⟩, ["a", "b"], [], [], [], [], []⟩

/-- C5 (amended), witness: the amended theorem applied at the concrete
dropped-column run and at a concrete stale state. -/
theorem c5_amended_witness :
    (resState (handleMissingValues oraclesTriv 0 ewC5.1 ewC5.2)).numericCols =
      ewC5.2.numericCols ∧
    (resState (handleOutliers oraclesTriv 0 ewC5.1 wStale)).df = wStale.df :=
  ⟨(c5_amended.1 oraclesTriv 0 ewC5.1 ewC5.2).1,
   (c5_amended.2 oraclesTriv 0 ewC5.1 wStale "a" (by decide) (by decide)).1⟩

/-! ### Claim C6: the type-mismatch commit threshold -/

/-- Modelled from the spec (for comparison only): the claimed commit
condition — at least 80 percent of the NON-MISSING values convert
successfully to numbers. -/
def claimedNumericCommit (orc : Oracles) (cells : List Cell) : Bool :=
  let nn := cells.filter (fun c => !c.isNull)
  let succ := nn.countP (fun c => !(toNumericCell orc c).isNull)
  !(Rat.blt (qnat succ) (qmul (Rat.divInt 4 5) (qnat nn.length)))

/-- An object column of ten cells: eight numeric strings and two missing
values.  All (100 percent) of its non-missing values convert, yet
`notna().mean()` over the coerced column is 8/10, not strictly above 0.8. -/
def colC6 : Col :=
  ⟨"v", .object, [.str "1", .str "2", .str "3", .str "4", .str "5", .str "6",
    .str "7", .str "8", .null, .null]⟩

def dfC6 : DataFrame := ⟨[colC6]⟩

def ewC6 := mkEnvWork dfC6 none none

/-- C6, counterexample: the claimed condition (at least 80 percent of
NON-MISSING values convert) holds for this column, yet the stage does not
commit the coercion: the column is unchanged and not reclassified, because
the code tests `notna().mean() > 0.8` over ALL rows, counting originally
missing values as failures, and strictly. -/
theorem c6_counterexample :
    claimedNumericCommit oraclesTriv colC6.cells = true ∧
    (resState (handleDataTypeMismatches oraclesTriv 0 ewC6.1 ewC6.2)).df.getCol? "v" =
      some colC6 ∧
    (resState (handleDataTypeMismatches oraclesTriv 0 ewC6.1 ewC6.2)).numericCols = [] ∧
    (resState (handleDataTypeMismatches oraclesTriv 0 ewC6.1 ewC6.2)).log = [] := by
  decide

/-- C6 (amended): for an object (categorical) column, numeric coercion is
committed and the column reclassified as numeric exactly when strictly more
than 80 percent of ALL the column's values (missing values counting as
failures) convert successfully; otherwise datetime coercion is attempted
under the same strict all-values threshold; a column passing neither stays
as it was. -/
theorem c6_amended (orc : Oracles) (c : Col) (h : c.dtype = .object) :
    ((convertColumn orc c).2 = .toNum ↔
      Rat.divInt 4 5 < notnaFrac (c.cells.map (toNumericCell orc))) ∧
    ((convertColumn orc c).2 = .toDt ↔
      ¬ Rat.divInt 4 5 < notnaFrac (c.cells.map (toNumericCell orc)) ∧
        Rat.divInt 4 5 < notnaFrac (c.cells.map (toDatetimeCell orc))) ∧
    ((convertColumn orc c).2 = .toNum →
      (convertColumn orc c).1 =
        { c with dtype := .numeric, cells := c.cells.map (toNumericCell orc) }) := by
  unfold convertColumn
  rw [h]
  by_cases h1 : Rat.divInt 4 5 < notnaFrac (c.cells.map (toNumericCell orc))
  · simp [h1]
  · by_cases h2 : Rat.divInt 4 5 < notnaFrac (c.cells.map (toDatetimeCell orc))
    · simp [h1, h2]
    · simp [h1, h2]

/-- Nine of ten values convert (9/10 > 0.8): the coercion is committed. -/
def colC6w : Col :=
  ⟨"u", .object, [.str "1", .str "2", .str "3", .str "4", .str "5", .str "6",
    .str "7", .str "8", .str "9", .null]⟩

/-- C6 (amended), witness: the amended theorem applied at a concrete column
that passes the strict all-values threshold. -/
theorem c6_amended_witness :
    (convertColumn oraclesTriv colC6w).2 = .toNum ∧
    (convertColumn oraclesTriv colC6w).1 =
      { colC6w with
        dtype := .numeric,
        cells := colC6w.cells.map (toNumericCell oraclesTriv) } := by
  have h := c6_amended oraclesTriv colC6w rfl
  have h1 : (convertColumn oraclesTriv colC6w).2 = .toNum := h.1.mpr (by decide)
  exact ⟨h1, h.2.2 h1⟩

/-! ### Claim C7: correlation pruning removes exactly one of a perfect pair -/

theorem dropCols_names (df : DataFrame) (ns : List String) :
    (df.dropCols ns).names = df.names.filter (fun n => !(ns.contains n)) := by
  unfold DataFrame.dropCols DataFrame.names
  induction df.cols with
  | nil => rfl
  | cons c rest ih =>
    by_cases h : c.name ∈ ns
    · simp [List.filter_cons, h]
      simpa using ih
    · simp [List.filter_cons, h]
      simpa using ih

/-- C7: with exactly two numeric columns whose absolute correlation is 1.0
and threshold 0.9, the upper-triangle single-pass marking flags only the
second column: exactly one of the pair is removed — never both, never
neither.  The first column survives in the frame and in the numeric list. -/
theorem c7_correlation (orc : Oracles) (amb : Nat) (env : Env) (w : Work)
    (a b : String) (cfg : Params) (sub : DataFrame)
    (hn : w.numericCols = [a, b]) (hab : a ≠ b)
    (hcfg : getFactorConfig env.config "feature_correlation" = .ok (some cfg))
    (hthr : numParam cfg "threshold" (Rat.divInt 9 10) = .ok (Rat.divInt 9 10))
    (hsub : w.df.subDf [a, b] = .ok sub)
    (hcorr : orc.corrAbs sub 0 1 = some 1) :
    (resState (handleFeatureCorrelation orc amb env w)).df.names =
      w.df.names.filter (fun n => !([b].contains n)) ∧
    (resState (handleFeatureCorrelation orc amb env w)).numericCols = [a] := by
  have h1 : optGtQ (orc.corrAbs sub 0 1) (Rat.divInt 9 10) = true := by
    rw [hcorr]
    decide
  have h2 : corrToRemove orc sub [a, b] (Rat.divInt 9 10) = [b] := by
    unfold corrToRemove
    rw [show ([a, b] : List String).length = 2 from rfl]
    rw [show List.range 2 = [0, 1] from rfl]
    simp [h1, List.range_succ, List.range_zero]
  unfold handleFeatureCorrelation stageWrap
  simp only [hcfg]
  unfold corrBody
  rw [hn]
  rw [show ([a, b] : List String).length = 2 from rfl]
  rw [if_pos (show 2 > 1 by norm_num)]
  simp only [hsub, hthr, h2]
  rw [if_neg (by simp)]
  constructor
  · simp [resState, dropCols_names]
  · simp [resState, List.filter_cons]
    simp [List.contains_cons, hab]

def colX : Col := ⟨"x", .numeric, [.num 1, .num 2, .num 3]⟩
def colY : Col := ⟨"y", .numeric, [.num 2, .num 4, .num 6]⟩
def dfC7 : DataFrame := ⟨[colX, colY]⟩

/-- An oracle whose correlation matrix has |corr| = 1 at entry (0, 1), as
pandas computes for the perfectly correlated pair `x`, `y = 2x`. -/
def oraclesCorr : Oracles :=
  { oraclesTriv with corrAbs := fun _ i j => if i = 0 ∧ j = 1 then some 1 else none }

def ewC7 := mkEnvWork dfC7 none none

/-- C7, witness: the theorem applied to a concrete two-column frame with a
perfectly correlated pair under the default threshold. -/
theorem c7_correlation_witness :
    (resState (handleFeatureCorrelation oraclesCorr 0 ewC7.1 ewC7.2)).df.names =
      ewC7.2.df.names.filter (fun n => !(["y"].contains n)) ∧
    (resState (handleFeatureCorrelation oraclesCorr 0 ewC7.1 ewC7.2)).numericCols = ["x"] :=
  c7_correlation oraclesCorr 0 ewC7.1 ewC7.2 "x" "y" (defaultFactor "feature_correlation")
    ⟨[colX, colY]⟩ rfl (by decide) rfl rfl rfl (by decide)

/-! ### Claim C8: applicability of the class-imbalance stage -/

/-- The applicability condition the claim states for the class-imbalance
stage: a designated target present in the frame, categorical or with at most
10 distinct values, whose minority-to-majority class-count ratio is below
one half. -/
def imbalanceApplicable (env : Env) (w : Work) : Prop :=
  ∃ t tcol, env.targetCol = some t ∧ w.df.getCol? t = some tcol ∧
    (tcol.dtype = .object ∨ nuniqueCells tcol.cells ≤ 10) ∧
    ∃ cmin cmax, ((valueCounts tcol.cells).map (·.2)).min? = some cmin ∧
      ((valueCounts tcol.cells).map (·.2)).max? = some cmax ∧
      qdiv (qnat cmin) (qnat cmax) < Rat.divInt 1 2

theorem cibBody_only_when (orc : Oracles) (amb : Nat) (env : Env) (w : Work)
    (cfg : Params) (h : ¬ imbalanceApplicable env w) :
    (resState (cibBody orc amb env.targetCol cfg w)).df = w.df := by
  unfold cibBody
  cases ht : env.targetCol with
  | none => rfl
  | some t =>
    simp only []
    by_cases ht0 : t = ""
    · rw [if_pos ht0]
      rfl
    · rw [if_neg ht0]
      by_cases hcont : w.df.names.contains t = true
      · rw [if_pos hcont]
        cases hg : w.df.getCol? t with
        | none => rfl
        | some tcol =>
          simp only []
          by_cases hd : tcol.dtype = .object ∨ nuniqueCells tcol.cells < 10
          · rw [if_pos hd]
            cases hmin : ((valueCounts tcol.cells).map (·.2)).min? with
            | none => rfl
            | some cmin =>
              cases hmax : ((valueCounts tcol.cells).map (·.2)).max? with
              | none => rfl
              | some cmax =>
                simp only []
                by_cases hr : qdiv (qnat cmin) (qnat cmax) < Rat.divInt 1 2
                · exact absurd
                    ⟨t, tcol, ht, hg,
                      hd.imp_right (fun hlt => Nat.le_of_lt hlt),
                      cmin, cmax, hmin, hmax, hr⟩ h
                · rw [if_neg hr]
                  rfl
          · rw [if_neg hd]
            rfl
      · rw [if_neg hcont]
        rfl

/-- C8: the class-imbalance stage synthesizes samples only when a target is
designated and present, categorical or with at most 10 distinct values, and
the minority-to-majority ratio is below 0.5 — in every other case the stage
leaves the dataset unchanged.  (The code itself uses the strictly stronger
cut `nunique() < 10`, which implies the claimed at-most-10.) -/
theorem c8_only_when (orc : Oracles) (amb : Nat) (env : Env) (w : Work)
    (h : ¬ imbalanceApplicable env w) :
    (resState (handleClassImbalance orc amb env w)).df = w.df := by
  unfold handleClassImbalance stageWrap
  cases getFactorConfig env.config "class_imbalance" with
  | error e => rfl
  | ok o =>
    cases o with
    | none => rfl
    | some cfg =>
      have hb := cibBody_only_when orc amb env w cfg h
      cases hc : cibBody orc amb env.targetCol cfg w with
      | ok w1 => simpa [resState, hc] using hb
      | error pe =>
        obtain ⟨w1, e⟩ := pe
        simp only [hc, resState] at hb ⊢
        exact hb

def dfC8 : DataFrame := ⟨[⟨"f", .numeric, [.num 1, .num 2]⟩]⟩

def ewC8 := mkEnvWork dfC8 none none

/-- C8, witness: with no designated target the stage leaves the concrete
dataset unchanged. -/
theorem c8_only_when_witness :
    (resState (handleClassImbalance oraclesTriv 0 ewC8.1 ewC8.2)).df = ewC8.2.df :=
  c8_only_when oraclesTriv 0 ewC8.1 ewC8.2
    (fun ⟨t, _tcol, ht, _⟩ => Option.noConfusion (show (none : Option String) = some t from ht))

/-! ### Claim C10: normalization casts categorical columns to string -/

/-- The normalization of a column is a cell-wise map whose image consists of
string cells only, sending a null cell (and the string "nan") to the literal
string "nan". -/
theorem normalizeColumn_cases (cells : List Cell) :
    ∃ g : Cell → Cell, (normalizeColumn cells).1 = cells.map g ∧
      (∀ x, ∃ s, g x = .str s) ∧ g .null = .str "nan" ∧ g (.str "nan") = .str "nan" := by
  unfold normalizeColumn emailPhase phonePhase cleanPhase
  by_cases he : cells.any (fun c => (cellToStr c).contains '@') = true
  · rw [if_pos he]
    simp only []
    by_cases hp : (cells.map emailFix).any (fun c => hasDigitRun (cellToStr c)) = true
    · rw [if_pos hp]
      refine ⟨fun c => cleanFix (phoneFix (emailFix c)), ?_, fun x => ⟨_, rfl⟩, by decide, by decide⟩
      simp [List.map_map, Function.comp]
    · rw [if_neg hp]
      refine ⟨fun c => cleanFix (emailFix c), ?_, fun x => ⟨_, rfl⟩, by decide, by decide⟩
      simp [List.map_map, Function.comp]
  · rw [if_neg he]
    simp only []
    by_cases hp : cells.any (fun c => hasDigitRun (cellToStr c)) = true
    · rw [if_pos hp]
      refine ⟨fun c => cleanFix (phoneFix c), ?_, fun x => ⟨_, rfl⟩, by decide, by decide⟩
      simp [List.map_map, Function.comp]
    · rw [if_neg hp]
      exact ⟨cleanFix, rfl, fun x => ⟨_, rfl⟩, by decide, by decide⟩

/-- Invariant relating a column's original cells to its current cells once
the stage has touched it: same length, every cell a string, original nulls now
the literal string "nan". -/
def nanOk (orig cur : List Cell) : Prop :=
  cur.length = orig.length ∧
  ∀ i, i < orig.length →
    (∃ s, cur.get? i = some (.str s)) ∧
    (orig.get? i = some (.null) → cur.get? i = some (.str "nan"))

/-- One normalization pass establishes the invariant. -/
theorem nanOk_normalize (cells : List Cell) : nanOk cells (normalizeColumn cells).1 := by
  obtain ⟨g, hg, hstr, hnull, _⟩ := normalizeColumn_cases cells
  rw [hg]
  refine ⟨List.length_map _ _, fun i hi => ?_⟩
  obtain ⟨x, hx⟩ : ∃ x, cells.get? i = some x := ⟨cells.get ⟨i, hi⟩, List.get?_eq_get hi⟩
  constructor
  · obtain ⟨s, hs⟩ := hstr x
    exact ⟨s, by rw [List.get?_map, hx]; simp [hs]⟩
  · intro h0
    rw [List.get?_map, h0]
    simp [hnull]

/-- Normalizing again preserves the invariant ("nan" stays "nan"). -/
theorem nanOk_renormalize (orig cur : List Cell) (h : nanOk orig cur) :
    nanOk orig (normalizeColumn cur).1 := by
  obtain ⟨g, hg, hstr, _, hnan⟩ := normalizeColumn_cases cur
  obtain ⟨hlen, hpt⟩ := h
  rw [hg]
  refine ⟨by rw [List.length_map, hlen], fun i hi => ?_⟩
  obtain ⟨hex, hnull⟩ := hpt i hi
  constructor
  · obtain ⟨s0, hs0⟩ := hex
    obtain ⟨s, hs⟩ := hstr (.str s0)
    exact ⟨s, by rw [List.get?_map, hs0]; simp [hs]⟩
  · intro h0
    rw [List.get?_map, hnull h0]
    simp [hnan]

/-- Replacing the column named like `col` makes `find?` return `col`. -/
theorem find?_replaced (col : Col) :
    ∀ cols : List Col, (∃ c ∈ cols, c.name = col.name) →
      List.find? (fun c => c.name = col.name)
        (cols.map (fun c0 => if c0.name = col.name then col else c0)) = some col := by
  intro cols
  induction cols with
  | nil => rintro ⟨c, hc, -⟩; cases hc
  | cons c0 rest ih =>
    rintro ⟨c, hc, hname⟩
    by_cases h : c0.name = col.name
    · simp [List.find?_cons, h]
    · simp only [List.map_cons, if_neg h, List.find?_cons, decide_eq_false h]
      rcases List.mem_cons.mp hc with he | hm
      · exact absurd (he ▸ hname) h
      · exact ih ⟨c, hm, hname⟩

/-- Appending a freshly named column makes `find?` return it. -/
theorem find?_appended (col : Col) :
    ∀ cols : List Col, (∀ c ∈ cols, ¬ c.name = col.name) →
      List.find? (fun c => c.name = col.name) (cols ++ [col]) = some col := by
  intro cols
  induction cols with
  | nil => intro _; simp [List.find?_cons]
  | cons c0 rest ih =>
    intro hall
    rw [List.cons_append, List.find?_cons]
    simp only [decide_eq_false (hall c0 (List.mem_cons_self _ _))]
    exact ih (fun c hc => hall c (List.mem_cons_of_mem _ hc))

/-- After `setCol col`, looking up `col.name` yields `col`. -/
theorem setCol_getCol?_self (df : DataFrame) (col : Col) :
    (df.setCol col).getCol? col.name = some col := by
  unfold DataFrame.setCol DataFrame.getCol?
  by_cases h : df.names.contains col.name = true
  · rw [if_pos h]
    refine find?_replaced col df.cols ?_
    have hmem : col.name ∈ df.names := List.elem_iff.mp h
    obtain ⟨c, hc, hn⟩ := List.mem_map.mp hmem
    exact ⟨c, hc, hn⟩
  · rw [if_neg h]
    refine find?_appended col df.cols ?_
    intro c hc hn
    exact h (List.elem_iff.mpr (hn ▸ List.mem_map.mpr ⟨c, hc, rfl⟩))

/-- `setCol col` leaves lookups of other names unchanged. -/
theorem setCol_getCol?_ne (df : DataFrame) (col : Col) (m : String) (h : ¬ m = col.name) :
    (df.setCol col).getCol? m = df.getCol? m := by
  unfold DataFrame.setCol DataFrame.getCol?
  by_cases hcont : df.names.contains col.name = true
  · rw [if_pos hcont]
    simp only []
    induction df.cols with
    | nil => rfl
    | cons c0 rest ih =>
      by_cases h0 : c0.name = col.name
      · have h1 : ¬ col.name = m := fun hh => h hh.symm
        have h2 : ¬ c0.name = m := fun hh => h1 (h0 ▸ hh)
        simp only [List.map_cons, if_pos h0, List.find?_cons, decide_eq_false h1,
          decide_eq_false h2]
        exact ih
      · simp only [List.map_cons, if_neg h0, List.find?_cons]
        by_cases hm : c0.name = m
        · simp [hm]
        · simp only [decide_eq_false hm]
          exact ih
  · rw [if_neg hcont]
    simp only []
    induction df.cols with
    | nil =>
      simp only [List.nil_append, List.find?_cons,
        decide_eq_false (fun (hh : col.name = m) => h hh.symm)]
    | cons c0 rest ih =>
      rw [List.cons_append, List.find?_cons, List.find?_cons]
      by_cases hm : c0.name = m
      · simp [hm]
      · simp only [decide_eq_false hm]
        exact ih

/-- A successful lookup implies membership in the name list. -/
theorem contains_of_getCol? (df : DataFrame) (c : String) (col : Col)
    (h : df.getCol? c = some col) : df.names.contains c = true := by
  unfold DataFrame.getCol? at h
  have hmem := List.mem_of_find?_eq_some h
  have hp := List.find?_some h
  have hn : col.name = c := of_decide_eq_true hp
  exact List.elem_iff.mpr (hn ▸ List.mem_map.mpr ⟨col, hmem, rfl⟩)

/-- Loop invariant before column `c` has been processed: the column is
present and either untouched or already normalized. -/
def colStateC (orig : List Cell) (c : String) (df : DataFrame) : Prop :=
  ∃ col : Col, df.getCol? c = some col ∧ (col.cells = orig ∨ nanOk orig col.cells)

/-- Loop invariant after column `c` has been processed. -/
def colDoneC (orig : List Cell) (c : String) (df : DataFrame) : Prop :=
  ∃ col : Col, df.getCol? c = some col ∧ nanOk orig col.cells

/-- `incStep` on a different column name leaves lookups of `c` unchanged. -/
theorem incStep_df_ne (acc : Work × Nat) (x c : String) (hne : ¬ c = x) :
    ((incStep acc x).1.df).getCol? c = acc.1.df.getCol? c := by
  unfold incStep
  by_cases hcont : acc.1.df.names.contains x = true
  · rw [if_pos hcont]
    exact setCol_getCol?_ne acc.1.df ⟨x, .object, _⟩ c hne
  · rw [if_neg hcont]

/-- `incStep` on a present column `c` stores its normalization. -/
theorem incStep_df_process (acc : Work × Nat) (c : String) (col : Col)
    (hg : acc.1.df.getCol? c = some col) :
    ((incStep acc c).1.df).getCol? c =
      some ⟨c, .object, (normalizeColumn col.cells).1⟩ := by
  unfold incStep
  rw [if_pos (contains_of_getCol? acc.1.df c col hg)]
  have hcells : colCells acc.1.df c = col.cells := by
    unfold colCells
    rw [hg]
  rw [hcells]
  exact setCol_getCol?_self acc.1.df ⟨c, .object, (normalizeColumn col.cells).1⟩

/-- `incStep` preserves the done-invariant for any column. -/
theorem incStep_done (orig : List Cell) (c : String) (acc : Work × Nat) (x : String)
    (h : colDoneC orig c acc.1.df) : colDoneC orig c ((incStep acc x).1.df) := by
  obtain ⟨col, hg, hok⟩ := h
  by_cases hx : c = x
  · subst hx
    exact ⟨⟨c, .object, (normalizeColumn col.cells).1⟩, incStep_df_process acc c col hg,
      nanOk_renormalize orig col.cells hok⟩
  · exact ⟨col, (incStep_df_ne acc x c hx).trans hg, hok⟩

/-- Processing column `c` turns the state-invariant into the done-invariant. -/
theorem incStep_establish (orig : List Cell) (c : String) (acc : Work × Nat)
    (h : colStateC orig c acc.1.df) : colDoneC orig c ((incStep acc c).1.df) := by
  obtain ⟨col, hg, hdisj⟩ := h
  refine ⟨⟨c, .object, (normalizeColumn col.cells).1⟩, incStep_df_process acc c col hg, ?_⟩
  rcases hdisj with he | hok
  · rw [he]
    exact he ▸ nanOk_normalize orig
  · exact nanOk_renormalize orig col.cells hok

/-- `incStep` on other columns preserves the state-invariant. -/
theorem incStep_state (orig : List Cell) (c : String) (acc : Work × Nat) (x : String)
    (hne : ¬ c = x) (h : colStateC orig c acc.1.df) :
    colStateC orig c ((incStep acc x).1.df) := by
  obtain ⟨col, hg, hdisj⟩ := h
  exact ⟨col, (incStep_df_ne acc x c hne).trans hg, hdisj⟩

/-- The fold over remaining columns preserves the done-invariant. -/
theorem foldl_incStep_done (orig : List Cell) (c : String) :
    ∀ (l : List String) (acc : Work × Nat), colDoneC orig c acc.1.df →
      colDoneC orig c ((l.foldl incStep acc).1.df) := by
  intro l
  induction l with
  | nil => exact fun acc h => h
  | cons x rest ih =>
    intro acc h
    exact ih (incStep acc x) (incStep_done orig c acc x h)

/-- If `c` occurs in the processed list and the state-invariant holds at the
start, the done-invariant holds after the fold. -/
theorem foldl_incStep_mem (orig : List Cell) (c : String) :
    ∀ (l : List String) (acc : Work × Nat), colStateC orig c acc.1.df → c ∈ l →
      colDoneC orig c ((l.foldl incStep acc).1.df) := by
  intro l
  induction l with
  | nil => intro acc _ h; cases h
  | cons x rest ih =>
    intro acc hst hmem
    by_cases hx : c = x
    · subst hx
      exact foldl_incStep_done orig c rest (incStep acc c) (incStep_establish orig c acc hst)
    · exact ih (incStep acc x) (incStep_state orig c acc x hx hst)
        (List.mem_cons.mp hmem |>.resolve_left hx)

/-- C10: when the inconsistent-format stage is enabled, every categorical
feature column present in the frame is unconditionally cast to string: after
the stage the column consists of string cells only, every cell that was
missing (null) before the stage holds the literal string "nan", and no cell
of the column is detected as null any more. -/
theorem c10_nulls_become_nan (orc : Oracles) (amb : Nat) (env : Env) (w : Work)
    (cfg : Params)
    (hcfg : getFactorConfig env.config "inconsistent_formats" = .ok (some cfg))
    (c : String) (hc : c ∈ w.categoricalCols)
    (col0 : Col) (h0 : w.df.getCol? c = some col0) :
    ∃ col1, (resState (handleInconsistentFormats orc amb env w)).df.getCol? c = some col1 ∧
      col1.cells.length = col0.cells.length ∧
      ∀ i, i < col0.cells.length →
        (∃ s, col1.cells.get? i = some (.str s)) ∧
        (col0.cells.get? i = some (.null) → col1.cells.get? i = some (.str "nan")) ∧
        ∀ x, col1.cells.get? i = some x → x.isNull = false := by
  have hres : (resState (handleInconsistentFormats orc amb env w)).df =
      ((w.categoricalCols.foldl incStep (w, 0)).1).df := by
    unfold handleInconsistentFormats stageWrap incBody
    simp only [hcfg]
    rfl
  rw [hres]
  obtain ⟨col1, hg1, hlen, hpt⟩ :=
    foldl_incStep_mem col0.cells c w.categoricalCols (w, 0) ⟨col0, h0, Or.inl rfl⟩ hc
  refine ⟨col1, hg1, hlen, fun i hi => ?_⟩
  obtain ⟨hex, hnull⟩ := hpt i hi
  refine ⟨hex, hnull, fun x hx => ?_⟩
  obtain ⟨s, hs⟩ := hex
  rw [hx] at hs
  cases hs
  rfl

def dfC10 : DataFrame := ⟨[⟨"c", .object, [.str "a", .null]⟩]⟩

def ewC10 := mkEnvWork dfC10 none none

def colC10 : Col := ⟨"c", .object, [.str "a", .null]⟩

def cfgC10 : Params := [("method", .s "regex_validation"), ("auto_fix", .b true)]

/-- C10, witness: on a concrete frame whose single categorical column holds
a null, the stage output column is all strings and the null has become the
literal string "nan". -/
theorem c10_nulls_become_nan_witness :
    ∃ col1, (resState (handleInconsistentFormats oraclesTriv 0 ewC10.1 ewC10.2)).df.getCol? "c"
        = some col1 ∧
      col1.cells.length = colC10.cells.length ∧
      ∀ i, i < colC10.cells.length →
        (∃ s, col1.cells.get? i = some (.str s)) ∧
        (colC10.cells.get? i = some (.null) → col1.cells.get? i = some (.str "nan")) ∧
        ∀ x, col1.cells.get? i = some x → x.isNull = false :=
  c10_nulls_become_nan oraclesTriv 0 ewC10.1 ewC10.2 cfgC10 (by decide) "c" (by decide)
    colC10 (by decide)

/-! ### Claim C9: determinism -/

/-- C9: the pipeline is deterministic.  Every stochastic component (iterative
imputer, isolation forest, SMOTE) is constructed with the fixed seed 42, so
the ambient global randomness (`amb`) is never consulted: two invocations on
equal inputs under different ambient randomness produce equal output
datasets and equal reports. -/
theorem c9_determinism (orc : Oracles) (df : DataFrame) (tc : Option String)
    (rc : Option RawConfig) (amb1 amb2 : Nat) :
    runPipeline orc amb1 df tc rc = runPipeline orc amb2 df tc rc := rfl

end PrepAPI
